import Mathlib

/-!
# Verification of the CUI (Combined User Interface) module

A shallow embedding, in Lean 4, of the resource-arbitration and
menu-navigation engine implemented in `src/Application/ui/cui.c`.

Pure data and control flow of the C functions are translated into
executable Lean definitions; the vendor RTOS and driver collaborators
(semaphores, UART driver, GPIO/LED handles) are treated as external and
are modelled only through their observable effects (e.g. a write log, a
completion flag read at each poll).  Machine integers are modelled as
`Nat`/`Int` with explicit reductions modulo `2 ^ 32` at the points where
overflow can matter.

The header `cui.h` is not part of the given sources; the handful of
constants it provides (result codes, input-command byte values, the
fixed client/menu capacities, the Back/Help description strings) are
modelled from the specification where needed and are marked as such.
-/

namespace CUI

/-- Result codes of the module (the `CUI_retVal_t` enumeration).
Modelled from the spec: `cui.h` is not under `src/`; the spec lists the
closed enumeration of result codes (success, failure, invalid param,
invalid handle, resource-not-acquired, max-menus-reached,
not-managing-btn/led/uart, missing-update-fn, no-lines-released,
previous-write-unfinished, uart-failure) whose names appear throughout
`cui.c`. -/
inductive CUI_retVal_t where
  | CUI_SUCCESS
  | CUI_FAILURE
  | CUI_INVALID_PARAM
  | CUI_INVALID_CLIENT_HANDLE
  | CUI_MODULE_UNINITIALIZED
  | CUI_RESOURCE_NOT_ACQUIRED
  | CUI_MAX_MENUS_REACHED
  | CUI_NOT_MANAGING_BTNS
  | CUI_NOT_MANAGING_LEDS
  | CUI_NOT_MANAGING_UART
  | CUI_MISSING_UART_UPDATE_FN
  | CUI_NO_ASYNC_LINES_RELEASED
  | CUI_PREV_WRITE_UNFINISHED
  | CUI_UART_FAILURE
  deriving DecidableEq, Repr

open CUI_retVal_t

/-- Maximum number of clients.  Modelled from the spec: `cui.h` is not
under `src/`; the spec only says client creation is "bounded by a fixed
maximum client count".  The concrete value does not matter for any
claim; `4` is used. -/
def MAX_CLIENTS : Nat := 4

/-- Maximum number of registered menus.  Modelled from the spec:
`cui.h` is not under `src/`; the spec only requires a fixed maximum
(the `max-menus-reached` error exists).  The concrete value does not
matter for any claim beyond being at least 2 and nonzero; `4` is
used. -/
def MAX_REGISTERED_MENUS : Nat := 4

/-- `CUI_INITIAL_STATUS_OFFSET` from cui.c line 56. -/
def CUI_INITIAL_STATUS_OFFSET : Nat := 5

/-- The `gModuleInitialized` / `gManageBtns` / `gManageLeds` /
`gManageUart` module flags of cui.c (lines 165-168). -/
structure GlobalFlags where
  gModuleInitialized : Bool
  gManageBtns : Bool
  gManageLeds : Bool
  gManageUart : Bool
  deriving DecidableEq, Repr

/-- Index of the first list element satisfying `p` (the C pattern of a
linear scan recording the first hit), `none` when there is none. -/
def findFirstIdx {α : Type} (p : α → Bool) : List α → Option Nat
  | [] => none
  | a :: t => if p a then some 0 else (findFirstIdx p t).map (· + 1)

/-- `CUI_getClientIndex` (cui.c lines 2336-2346): linear scan of
`gClientHandles` for the handle, `-1` when absent.  The table is the
list of `MAX_CLIENTS` handle slots (0 = `NULL` = empty slot). -/
def CUI_getClientIndex (gClientHandles : List Nat) (h : Nat) : Int :=
  match findFirstIdx (fun c => c = h) gClientHandles with
  | some i => (i : Int)
  | none => -1

/-- `CUI_validateHandle` (cui.c lines 2165-2180). -/
def CUI_validateHandle (gClientHandles : List Nat) (h : Nat) : CUI_retVal_t :=
  if h = 0 then CUI_INVALID_CLIENT_HANDLE
  else if CUI_getClientIndex gClientHandles h = -1 then CUI_INVALID_CLIENT_HANDLE
  else CUI_SUCCESS

/-- `CUI_publicAPIChecks` (cui.c lines 2155-2163). -/
def CUI_publicAPIChecks (g : GlobalFlags) (gClientHandles : List Nat)
    (h : Nat) : CUI_retVal_t :=
  if !g.gModuleInitialized then CUI_MODULE_UNINITIALIZED
  else CUI_validateHandle gClientHandles h

/-- `CUI_publicBtnsAPIChecks` (cui.c lines 2125-2133). -/
def CUI_publicBtnsAPIChecks (g : GlobalFlags) (gClientHandles : List Nat)
    (h : Nat) : CUI_retVal_t :=
  if !g.gManageBtns then CUI_NOT_MANAGING_BTNS
  else CUI_publicAPIChecks g gClientHandles h

/-- `CUI_publicLedsAPIChecks` (cui.c lines 2135-2143). -/
def CUI_publicLedsAPIChecks (g : GlobalFlags) (gClientHandles : List Nat)
    (h : Nat) : CUI_retVal_t :=
  if !g.gManageLeds then CUI_NOT_MANAGING_LEDS
  else CUI_publicAPIChecks g gClientHandles h

/-- `CUI_publicUartAPIChecks` (cui.c lines 2145-2153). -/
def CUI_publicUartAPIChecks (g : GlobalFlags) (gClientHandles : List Nat)
    (h : Nat) : CUI_retVal_t :=
  if !g.gManageUart then CUI_NOT_MANAGING_UART
  else CUI_publicAPIChecks g gClientHandles h

/-!
## Button and LED resource tables (claim C1, C10)

`CUI_btnResource_t` (cui.c lines 120-125) holds the owning client hash
(0 = free), the underlying `Button_Handle` (an opaque device handle,
untouched by acquire/release) and an optional press callback.
`CUI_ledResource_t` (cui.c lines 128-132) holds the owner hash and the
device handle.  The device handles are external driver state and are
not represented.
-/

/-- A button resource slot: owner hash (0 = free) and optional app
callback (callbacks are opaque; identified by a `Nat` tag). -/
structure CUI_btnResource_t where
  clientHash : Nat
  appCb : Option Nat
  deriving DecidableEq, Repr

/-- A LED resource slot: owner hash (0 = free). -/
structure CUI_ledResource_t where
  clientHash : Nat
  deriving DecidableEq, Repr

/-- `CUI_acquireBtn` (cui.c lines 2182-2193): fail if the slot has a
nonzero owner, otherwise store the caller's hash and callback. -/
def CUI_acquireBtn (res : List CUI_btnResource_t) (h : Nat) (index : Nat)
    (appCB : Option Nat) : CUI_retVal_t × List CUI_btnResource_t :=
  let r := res.getD index ⟨0, none⟩
  if r.clientHash ≠ 0 then
    (CUI_FAILURE, res)
  else
    (CUI_SUCCESS, res.set index ⟨h, appCB⟩)

/-- `CUI_acquireLed` (cui.c lines 2195-2205). -/
def CUI_acquireLed (res : List CUI_ledResource_t) (h : Nat) (index : Nat) :
    CUI_retVal_t × List CUI_ledResource_t :=
  let r := res.getD index ⟨0⟩
  if r.clientHash ≠ 0 then
    (CUI_FAILURE, res)
  else
    (CUI_SUCCESS, res.set index ⟨h⟩)

/-- `CUI_btnResourceRequest` (cui.c lines 636-650): public checks, then
parameter check, then `CUI_acquireBtn`.  The request struct carries the
index and the callback; `none` stands for a `NULL` request pointer. -/
def CUI_btnResourceRequest (g : GlobalFlags) (gClientHandles : List Nat)
    (res : List CUI_btnResource_t) (h : Nat)
    (pRequest : Option (Nat × Option Nat)) :
    CUI_retVal_t × List CUI_btnResource_t :=
  let chk := CUI_publicBtnsAPIChecks g gClientHandles h
  if chk ≠ CUI_SUCCESS then (chk, res)
  else
    match pRequest with
    | none => (CUI_INVALID_PARAM, res)
    | some (index, appCB) => CUI_acquireBtn res h index appCB

/-- `CUI_btnResourceRelease` (cui.c lines 720-737): public checks, then
ownership check, then clear the owner hash and the callback. -/
def CUI_btnResourceRelease (g : GlobalFlags) (gClientHandles : List Nat)
    (res : List CUI_btnResource_t) (h : Nat) (index : Nat) :
    CUI_retVal_t × List CUI_btnResource_t :=
  let chk := CUI_publicBtnsAPIChecks g gClientHandles h
  if chk ≠ CUI_SUCCESS then (chk, res)
  else if h ≠ (res.getD index ⟨0, none⟩).clientHash then
    (CUI_INVALID_CLIENT_HANDLE, res)
  else
    (CUI_SUCCESS, res.set index ⟨0, none⟩)

/-- `CUI_ledResourceRequest` (cui.c lines 752-773). -/
def CUI_ledResourceRequest (g : GlobalFlags) (gClientHandles : List Nat)
    (res : List CUI_ledResource_t) (h : Nat) (pRequest : Option Nat) :
    CUI_retVal_t × List CUI_ledResource_t :=
  let chk := CUI_publicLedsAPIChecks g gClientHandles h
  if chk ≠ CUI_SUCCESS then (chk, res)
  else
    match pRequest with
    | none => (CUI_INVALID_PARAM, res)
    | some index => CUI_acquireLed res h index

/-- `CUI_ledResourceRelease` (cui.c lines 785-804): public checks,
ownership check, `LED_setOff` on the device (external, not modelled),
then clear the owner hash. -/
def CUI_ledResourceRelease (g : GlobalFlags) (gClientHandles : List Nat)
    (res : List CUI_ledResource_t) (h : Nat) (index : Nat) :
    CUI_retVal_t × List CUI_ledResource_t :=
  let chk := CUI_publicLedsAPIChecks g gClientHandles h
  if chk ≠ CUI_SUCCESS then (chk, res)
  else if h ≠ (res.getD index ⟨0⟩).clientHash then
    (CUI_INVALID_CLIENT_HANDLE, res)
  else
    (CUI_SUCCESS, res.set index ⟨0⟩)

/-- A button or LED operation issued by some client, for reasoning
about sequences of acquires and releases on the public API. -/
inductive BtnOp where
  | acquire (h : Nat) (index : Nat) (appCB : Option Nat)
  | release (h : Nat) (index : Nat)
  deriving DecidableEq, Repr

/-- One button operation through the public API. -/
def btnStep (g : GlobalFlags) (gClientHandles : List Nat)
    (res : List CUI_btnResource_t) (op : BtnOp) : List CUI_btnResource_t :=
  match op with
  | .acquire h index appCB =>
      (CUI_btnResourceRequest g gClientHandles res h (some (index, appCB))).2
  | .release h index =>
      (CUI_btnResourceRelease g gClientHandles res h index).2

/-- Run a sequence of public button operations. -/
def btnRun (g : GlobalFlags) (gClientHandles : List Nat)
    (res : List CUI_btnResource_t) (ops : List BtnOp) :
    List CUI_btnResource_t :=
  ops.foldl (btnStep g gClientHandles) res

/-- A LED operation issued by some client. -/
inductive LedOp where
  | acquire (h : Nat) (index : Nat)
  | release (h : Nat) (index : Nat)
  deriving DecidableEq, Repr

/-- One LED operation through the public API. -/
def ledStep (g : GlobalFlags) (gClientHandles : List Nat)
    (res : List CUI_ledResource_t) (op : LedOp) : List CUI_ledResource_t :=
  match op with
  | .acquire h index =>
      (CUI_ledResourceRequest g gClientHandles res h (some index)).2
  | .release h index =>
      (CUI_ledResourceRelease g gClientHandles res h index).2

/-- Run a sequence of public LED operations. -/
def ledRun (g : GlobalFlags) (gClientHandles : List Nat)
    (res : List CUI_ledResource_t) (ops : List LedOp) :
    List CUI_ledResource_t :=
  ops.foldl (ledStep g gClientHandles) res

/-- The stored owner of button slot `index`. -/
def btnOwner (res : List CUI_btnResource_t) (index : Nat) : Nat :=
  (res.getD index ⟨0, none⟩).clientHash

/-- The stored owner of LED slot `index`. -/
def ledOwner (res : List CUI_ledResource_t) (index : Nat) : Nat :=
  (res.getD index ⟨0⟩).clientHash

/-!
## Client registry: `CUI_clientOpen` (claim C5)

`CUI_clientOpen` (cui.c lines 491-546) computes a 32-bit additive
checksum of the client name (bytes of the name followed by the NUL
terminator) and stores it in the first empty handle slot.  The name is
modelled as the list of its bytes (without the terminator; the C loop
runs over `strlen(name) + 1` characters, so it also adds the terminator
byte, which is 0).
-/

/-- The client-name hash of `CUI_clientOpen` (cui.c lines 516-527):
`hash` is a `uint32_t` accumulator summing every byte of the name
including the NUL terminator; each addition wraps modulo `2 ^ 32`. -/
def CUI_clientOpen_hash (clientName : List Nat) : Nat :=
  (clientName ++ [0]).foldl (fun h b => (h + b) % 2 ^ 32) 0

/-- The result of `CUI_clientOpen`, separating the function's three
return sites: `NULL` returned because the module is uninitialized,
`NULL` returned because the client table is at capacity, or the
computed hash returned from the end of the open path. -/
inductive ClientOpenResult where
  | nullNotInitialized
  | nullAtCapacity
  | openedHash (h : Nat)
  deriving DecidableEq, Repr

/-- The `uint32_t` value the C function actually returns for a given
`ClientOpenResult` (`NULL` is 0). -/
def ClientOpenResult.wireValue : ClientOpenResult → Nat
  | .nullNotInitialized => 0
  | .nullAtCapacity => 0
  | .openedHash h => h

/-- `CUI_clientOpen` (cui.c lines 491-546).  `gClientHandles` is the
handle table (0 = empty slot); `numClients` counts the non-empty slots;
the new hash is stored at index `numClients` (the C code indexes the
table with the count, not with a free index).  The status-line
allocation for the new client is external `malloc` state; the model
records the quota table update. -/
def CUI_clientOpen (gModuleInitialized : Bool) (gClientHandles : List Nat)
    (gMaxStatusLines : List Nat) (gManageUart : Bool)
    (clientName : List Nat) (maxStatusLines : Nat) :
    ClientOpenResult × List Nat × List Nat :=
  if !gModuleInitialized then
    (.nullNotInitialized, gClientHandles, gMaxStatusLines)
  else
    let numClients := gClientHandles.countP (fun c => c ≠ 0)
    if numClients ≥ MAX_CLIENTS then
      (.nullAtCapacity, gClientHandles, gMaxStatusLines)
    else
      let hash := CUI_clientOpen_hash clientName
      let handles := gClientHandles.set numClients hash
      let quotas :=
        if maxStatusLines ≠ 0 ∧ gManageUart then
          gMaxStatusLines.set numClients maxStatusLines
        else gMaxStatusLines
      (.openedHash hash, handles, quotas)

/-!
## Serial transport: `CUI_writeString` (claim C9)

`CUI_writeString` (cui.c lines 1939-2020).  The UART completion flag
`gUartWriteComplete` is set asynchronously by `UartWriteCallback`; the
model reads it through `flag : Nat → Bool`, where `flag n` is the value
observed at the n-th read of the flag (`flag 0` is the initial check
before the retry loop, `flag (i+1)` the check after the (i+1)-th
`Task_sleep`).  Each `Task_sleep(1000)` is recorded as an entry `1000`
in the returned sleep log.  `UART_write` itself always returns 0 in
callback mode (per the comment at cui.c line 2010), so the
`CUI_UART_FAILURE` branch after it is not taken.
-/

/-- The retry loop of `CUI_writeString` (cui.c lines 1981-1996): up to
`fuel` (= 10) iterations, each sleeping 1000 ticks and then re-reading
the completion flag; stops early once the flag is set.  Returns whether
the UART became ready and the log of sleeps performed. -/
def CUI_writeString_pollLoop (flag : Nat → Bool) : Nat → Nat → Bool × List Nat
  | 0, _ => (false, [])
  | fuel + 1, i =>
      if flag (i + 1) then (true, [1000])
      else
        let rest := CUI_writeString_pollLoop flag fuel (i + 1)
        (rest.1, 1000 :: rest.2)

/-- `CUI_writeString` (cui.c lines 1939-2020).  Result: the return
value, whether `UART_write` was issued, and the sleep log. -/
def CUI_writeString (uartHandleNull : Bool) (bufferNull : Bool)
    (flag : Nat → Bool) : CUI_retVal_t × Bool × List Nat :=
  if uartHandleNull || bufferNull then (CUI_UART_FAILURE, false, [])
  else
    let uartReady := flag 0
    if uartReady then (CUI_SUCCESS, true, [])
    else
      let poll := CUI_writeString_pollLoop flag 10 0
      if poll.1 then (CUI_SUCCESS, true, poll.2)
      else (CUI_PREV_WRITE_UNFINISHED, false, poll.2)

/-!
## `CUI_btnGetValue` (claim C10)

`CUI_btnGetValue` (cui.c lines 694-708): every check present in the
other button/LED operations is commented out in the source; the
function unconditionally reads the GPIO behind the button index and
returns success.  The model therefore takes all the state the checks
would consult, to show the result does not depend on any of it.
-/

/-- `CUI_btnGetValue` (cui.c lines 694-708).  `gpioRead index` is the
raw GPIO state of the button's pin.  Returns the result code and the
value stored through `_pBtnState`. -/
def CUI_btnGetValue (_g : GlobalFlags) (_gClientHandles : List Nat)
    (_res : List CUI_btnResource_t) (_clientHandle : Nat)
    (gpioRead : Nat → Bool) (index : Nat) : CUI_retVal_t × Bool :=
  (CUI_SUCCESS, gpioRead index)

/-!
## Status lines (claims C3, C8)

`CUI_statusLineResource_t` (cui.c lines 142-148): owner hash, fixed
line offset, label, and a status that is `CUI_RELEASED = 0` or
`CUI_ACQUIRED = 0xDEADBEEF` (cui.c lines 112-117).  A client's slots
are zero-initialized at `CUI_clientOpen` (`memset` at cui.c line 540),
so a never-acquired slot has `clientHash = 0` and `status =
CUI_RELEASED`.
-/

/-- `CUI_RELEASED` (cui.c line 114). -/
def CUI_RELEASED : Nat := 0

/-- `CUI_ACQUIRED` (cui.c line 116). -/
def CUI_ACQUIRED : Nat := 0xDEADBEEF

/-- A status-line resource slot (`CUI_statusLineResource_t`). -/
structure CUI_statusLineResource_t where
  clientHash : Nat
  lineOffset : Nat
  label : String
  status : Nat
  deriving DecidableEq, Repr

/-- The all-zero slot produced by the `memset` at client open. -/
def zeroStatusLine : CUI_statusLineResource_t :=
  ⟨0, 0, "", CUI_RELEASED⟩

/-- The UART-side state consulted and mutated by the status-line API:
the module flags, the client handle table, every client's quota
(`gMaxStatusLines`), every client's slot array
(`gStatusLineResources`), the ping-pong buffer selector
(`currStatusBuff`, static in `CUI_statusLinePrintf`), and the log of
terminal line numbers written so far over the UART. -/
structure StatusState where
  g : GlobalFlags
  gClientHandles : List Nat
  gMaxStatusLines : List Nat
  gStatusLineResources : List (List CUI_statusLineResource_t)
  currStatusBuff : Nat
  writes : List Nat
  deriving Repr

/-- The loop of `CUI_acquireStatusLine` (cui.c lines 2230-2237)
computing the new line's offset: for every client below `clientIndex`
add that client's quota plus one separator line, then add the slot
index within the client. -/
def CUI_acquireStatusLine_offset (gMaxStatusLines : List Nat)
    (clientIndex : Nat) (freeIndex : Nat) : Nat :=
  (gMaxStatusLines.take clientIndex).foldl (fun acc q => acc + q + 1) 0
    + freeIndex

/-- `CUI_acquireStatusLine` (cui.c lines 2207-2256): find the first
`CUI_RELEASED` slot of the calling client, compute its fixed offset,
fill in the slot (label gets `": "` appended, per
`CUI_LABEL_VAL_SEP`), and hand out the slot index as the line id. -/
def CUI_acquireStatusLine (st : StatusState) (h : Nat) (pLabel : String) :
    CUI_retVal_t × Option Nat × StatusState :=
  let clientIndex := (CUI_getClientIndex st.gClientHandles h).toNat
  let lines := st.gStatusLineResources.getD clientIndex []
  let quota := st.gMaxStatusLines.getD clientIndex 0
  let freeIndex := (List.range quota).find?
    (fun i => (lines.getD i zeroStatusLine).status = CUI_RELEASED)
  match freeIndex with
  | none => (CUI_NO_ASYNC_LINES_RELEASED, none, st)
  | some fi =>
      let offset := CUI_acquireStatusLine_offset st.gMaxStatusLines clientIndex fi
      let slot : CUI_statusLineResource_t :=
        ⟨h, offset, pLabel ++ ": ", CUI_ACQUIRED⟩
      let lines' := lines.set fi slot
      let st' := { st with
        gStatusLineResources := st.gStatusLineResources.set clientIndex lines' }
      (CUI_SUCCESS, some fi, st')

/-- The terminal line a status line is printed at
(`CUI_statusLinePrintf`, cui.c lines 1614-1623): the initial offset
(0 if the build had no registered-menu capacity, otherwise
`CUI_INITIAL_STATUS_OFFSET`) plus the slot's fixed `lineOffset`. -/
def CUI_statusLineDispOffset (lineOffset : Nat) : Nat :=
  (if MAX_REGISTERED_MENUS = 0 then 0 else CUI_INITIAL_STATUS_OFFSET)
    + lineOffset

/-- `CUI_statusLinePrintf` (cui.c lines 1580-1679), with the formatted
payload abstracted away: the public checks, the owner check (cui.c
line 1602), the acquisition check (line 1607), and on success one UART
frame written at the line's display offset plus the ping-pong buffer
swap.  Error paths perform no write and leave the state unchanged. -/
def CUI_statusLinePrintf (st : StatusState) (h : Nat) (lineId : Nat) :
    CUI_retVal_t × StatusState :=
  let chk := CUI_publicUartAPIChecks st.g st.gClientHandles h
  if chk ≠ CUI_SUCCESS then (chk, st)
  else
    let clientIndex := (CUI_getClientIndex st.gClientHandles h).toNat
    let slot := (st.gStatusLineResources.getD clientIndex []).getD lineId
      zeroStatusLine
    if h ≠ slot.clientHash then (CUI_INVALID_CLIENT_HANDLE, st)
    else if slot.status ≠ CUI_ACQUIRED then (CUI_RESOURCE_NOT_ACQUIRED, st)
    else
      let st' := { st with
        currStatusBuff := if st.currStatusBuff = 0 then 1 else 0,
        writes := st.writes ++ [CUI_statusLineDispOffset slot.lineOffset] }
      (CUI_SUCCESS, st')

/-!
## Menu engine (claims C2, C4, C6, C7)

Menus are client-allocated `CUI_menu_t` structures referenced by
pointer; the engine only borrows them.  Pointers are modelled as menu
identifiers (`Nat`) resolved through a store `Nat → CUI_menu_t`; the
synthetic `cuiMultiMenu` lives at the distinguished identifier
`multiMenuId = 0`, client menus at nonzero identifiers.  Writing
through a pointer becomes a store update.
-/

/-- The internal action functions a menu item's `item.pFnAction` can
hold: the module's own `CUI_menuActionBack` (installed by
`CUI_registerMenu`) or an arbitrary client action callback (opaque,
identified by a tag; client callbacks do not change the navigation
state). -/
inductive ActionFn where
  | menuActionBack
  | clientAction (tag : Nat)
  deriving DecidableEq, Repr

/-- The intercept functions a menu item's `item.pFnIntercept` can
hold: the module's own `CUI_menuActionHelp` or a client handler
(opaque; handlers only produce display lines and a cursor hint). -/
inductive InterceptFn where
  | menuActionHelp
  | clientIntercept (tag : Nat)
  deriving DecidableEq, Repr

/-- The anonymous union inside `CUI_menuItem_t` (`item.pSubMenu` /
`item.pFnAction` / `item.pFnIntercept`), tagged by its last write;
`nullItem` is the zero-initialized union. -/
inductive ItemUnion where
  | pSubMenu (id : Nat)
  | pFnAction (a : ActionFn)
  | pFnIntercept (f : InterceptFn)
  | nullItem
  deriving DecidableEq, Repr

/-- `CUI_menuItem_t`: a `NULL` (`none`) description marks a sub-menu
item; otherwise the item is a leaf with that description. -/
structure CUI_menuItem_t where
  interceptable : Bool
  interceptActive : Bool
  pDesc : Option String
  item : ItemUnion
  deriving DecidableEq, Repr

/-- The zero-initialized menu item. -/
def defaultMenuItem : CUI_menuItem_t := ⟨false, false, none, .nullItem⟩

/-- `CUI_menu_t`: the uart update function is opaque (`none` = `NULL`
pointer), `pUpper` is the optional parent menu pointer. -/
structure CUI_menu_t where
  uartUpdateFn : Option Nat
  pTitle : String
  numItems : Nat
  pUpper : Option Nat
  menuItems : List CUI_menuItem_t
  deriving DecidableEq, Repr

/-- An unused store entry (no menu object lives at this address). -/
def defaultMenu : CUI_menu_t := ⟨none, "", 0, none, []⟩

/-- The identifier (address) of the global `cuiMultiMenu` object. -/
def multiMenuId : Nat := 0

/-- `CUI_MENU_ACTION_BACK_DESC`.  Modelled from the spec: the macro
lives in `cui.h` (not under `src/`); the spec only requires the
trailing item's description to become "Back".  Only its identity
matters. -/
def CUI_MENU_ACTION_BACK_DESC : String := "Back"

/-- `CUI_MENU_ACTION_HELP_DESC`.  Modelled from the spec: the macro
lives in `cui.h` (not under `src/`); the spec only requires the root
menu's trailing description to be "Help". -/
def CUI_MENU_ACTION_HELP_DESC : String := "Help"

/-- The Back item `CUI_registerMenu` writes over a registered menu's
trailing Help item (cui.c lines 1056-1059 and 1082-1085). -/
def backMenuItem : CUI_menuItem_t :=
  ⟨false, false, some CUI_MENU_ACTION_BACK_DESC, .pFnAction .menuActionBack⟩

/-- The Help item written as the multi-menu's trailing item (cui.c
lines 1091-1094) and restored onto a single root by
`CUI_deRegisterMenu` (cui.c lines 1224-1227). -/
def helpMenuItem : CUI_menuItem_t :=
  ⟨true, false, some CUI_MENU_ACTION_HELP_DESC, .pFnIntercept .menuActionHelp⟩

/-- The global `cuiMultiMenu` object as initialized at cui.c lines
230-243 and 432-446: no update function, `MAX_REGISTERED_MENUS + 1`
item capacity, zeroed items, no parent. -/
def cuiMultiMenu_init : CUI_menu_t :=
  ⟨none, " TI DMM Application ", MAX_REGISTERED_MENUS + 1, none,
    List.replicate (MAX_REGISTERED_MENUS + 1) defaultMenuItem⟩

/-- The menu-engine global state (cui.c lines 205-217): the menu store
(pointer resolution), the `gMenuResources` registry (owner hash and
menu pointer per slot; `(0, none)` is a free slot), and the navigation
globals `gpMainMenu`, `gpCurrMenu`, `gCurrMenuItemEntry`,
`gPrevMenuItemEntry`. -/
structure MenuState where
  store : Nat → CUI_menu_t
  gMenuResources : List (Nat × Option Nat)
  gpMainMenu : Option Nat
  gpCurrMenu : Option Nat
  gCurrMenuItemEntry : Int
  gPrevMenuItemEntry : Int

/-- Write through a menu pointer: update the menu stored at `id`. -/
def updMenu (store : Nat → CUI_menu_t) (id : Nat)
    (f : CUI_menu_t → CUI_menu_t) : Nat → CUI_menu_t :=
  fun j => if j = id then f (store j) else store j

/-- Write one item of a menu (`m->menuItems[i] = it`; `List.set` is a
no-op out of range, like the C write would be out of the object). -/
def setItem (m : CUI_menu_t) (i : Nat) (it : CUI_menuItem_t) : CUI_menu_t :=
  { m with menuItems := m.menuItems.set i it }

/-- A `gMenuResources` slot is free when both the hash and the menu
pointer are `NULL` (cui.c lines 1008-1009). -/
def menuSlotFree (r : Nat × Option Nat) : Bool :=
  r.1 == 0 && r.2.isNone

/-- A `gMenuResources` slot currently holding a registered menu: both
the hash and the menu pointer are non-`NULL` (the counting condition of
`CUI_deRegisterMenu`, cui.c lines 1179-1183). -/
def occupiedSlot (r : Nat × Option Nat) : Bool :=
  r.1 != 0 && r.2.isSome

/-- `CUI_registerMenu` (cui.c lines 984-1134), minus the public-API
checks on the client handle (assumed to have passed) and the
`CUI_dispMenu` redraw (display only).  Faithful to the source: the
update-function check, the free-slot/occupied-count scan, promotion of
the single root into the multi-menu on the second registration,
rewriting of trailing Help items to Back, appending of the multi-menu's
Help item, and the final cursor reset to the main menu's last item. -/
def CUI_registerMenu (st : MenuState) (h : Nat) (mId : Nat) :
    CUI_retVal_t × MenuState :=
  if ((st.store mId).uartUpdateFn).isNone then
    (CUI_MISSING_UART_UPDATE_FN, st)
  else
    let freeIndex := findFirstIdx menuSlotFree st.gMenuResources
    let numMenus := st.gMenuResources.countP (fun r => !menuSlotFree r)
    match freeIndex with
    | none => (CUI_MAX_MENUS_REACHED, st)
    | some fi =>
      let st1 := { st with gMenuResources := st.gMenuResources.set fi (h, some mId) }
      if numMenus > 0 then
        let st2 :=
          if numMenus = 1 then
            match st1.gpMainMenu with
            | some mm =>
              let s1 := updMenu st1.store multiMenuId
                (fun mu => { mu with uartUpdateFn := (st1.store mm).uartUpdateFn })
              let s2 := updMenu s1 multiMenuId
                (fun mu => setItem mu 0 ⟨false, false, none, .pSubMenu mm⟩)
              let s3 := updMenu s2 mm (fun m => { m with pUpper := some multiMenuId })
              let s4 := updMenu s3 mm (fun m => setItem m (m.numItems - 1) backMenuItem)
              { st1 with store := s4,
                         gpMainMenu := some multiMenuId,
                         gpCurrMenu := some multiMenuId }
            | none =>
              -- the C dereferences `gpMainMenu` here; it is non-NULL in
              -- every defined execution with one registered menu
              st1
          else st1
        let s5 := updMenu st2.store multiMenuId
          (fun mu => setItem mu numMenus ⟨false, false, none, .pSubMenu mId⟩)
        let s6 := updMenu s5 mId (fun m => { m with pUpper := some multiMenuId })
        let s7 := updMenu s6 mId (fun m => setItem m (m.numItems - 1) backMenuItem)
        let s8 := updMenu s7 multiMenuId
          (fun mu => setItem mu (numMenus + 1) helpMenuItem)
        let s9 := updMenu s8 multiMenuId
          (fun mu => { mu with numItems := if numMenus = 1 then 3 else mu.numItems + 1 })
        let st3 := { st2 with store := s9 }
        let entry := ((st3.store (st3.gpMainMenu.getD multiMenuId)).numItems : Int) - 1
        (CUI_SUCCESS, { st3 with gCurrMenuItemEntry := entry })
      else
        let st2 := { st1 with gpMainMenu := some mId, gpCurrMenu := some mId }
        let entry := ((st2.store mId).numItems : Int) - 1
        (CUI_SUCCESS, { st2 with gCurrMenuItemEntry := entry })

/-- `CUI_deRegisterMenu` (cui.c lines 1146-1275), minus the public-API
checks on the client handle and the display writes.  Faithful to the
source: the matching-slot/occupied-count scan, collapse back to a
single root (restoring its Help item) when the multi-menu is down to 3
items, the item-array downshift otherwise, the jump to an empty state
when the last menu leaves, and the final slot clear. -/
def CUI_deRegisterMenu (st : MenuState) (h : Nat) (mId : Nat) :
    CUI_retVal_t × MenuState :=
  if ((st.store mId).uartUpdateFn).isNone then
    (CUI_MISSING_UART_UPDATE_FN, st)
  else
    let matching := findFirstIdx
      (fun r => r.1 == h && r.2 == some mId) st.gMenuResources
    let numMenus := st.gMenuResources.countP occupiedSlot
    match matching with
    | none => (CUI_RESOURCE_NOT_ACQUIRED, st)
    | some mi =>
      let st' :=
        if numMenus > 1 then
          if (st.store multiMenuId).numItems = 3 then
            let newMainMenuIndex := ((List.range st.gMenuResources.length).find?
              (fun i =>
                occupiedSlot (st.gMenuResources.getD i (0, none)) && i != mi)).getD 0
            let newMain := (st.gMenuResources.getD newMainMenuIndex (0, none)).2
            let s1 := updMenu st.store multiMenuId (fun mu => { mu with numItems := 0 })
            -- `gCurrMenuItemEntry = gpMainMenu->numItems - 1`; the C
            -- dereferences the new main-menu pointer, non-NULL whenever
            -- the found slot is occupied
            let entry := ((s1 (newMain.getD multiMenuId)).numItems : Int) - 1
            let s2 := updMenu s1 (newMain.getD multiMenuId)
              (fun m => setItem m (m.numItems - 1) helpMenuItem)
            { st with store := s2, gpMainMenu := newMain, gpCurrMenu := newMain,
                      gCurrMenuItemEntry := entry }
          else
            let mu := st.store multiMenuId
            let shifted := (List.range mu.menuItems.length).map (fun i =>
              if mi ≤ i ∧ i < MAX_REGISTERED_MENUS then
                mu.menuItems.getD (i + 1) defaultMenuItem
              else mu.menuItems.getD i defaultMenuItem)
            let decEntry :=
              if st.gCurrMenuItemEntry = (mu.numItems : Int) - 1 then
                st.gCurrMenuItemEntry - 1
              else st.gCurrMenuItemEntry
            let s1 := updMenu st.store multiMenuId
              (fun m => { m with menuItems := shifted, numItems := m.numItems - 1 })
            { st with store := s1, gCurrMenuItemEntry := decEntry }
        else
          { st with gpMainMenu := none, gpCurrMenu := none, gCurrMenuItemEntry := 0 }
      (CUI_SUCCESS,
        { st' with gMenuResources := st'.gMenuResources.set mi (0, none) })

/-!
## Input decoding and the navigation state machine

The input-command byte values come from `cui.h`, which is not under
`src/`.  Modelled from the spec: §4.3 gives the leading escape byte
0x1B and requires the decoded arrow commands to survive the
uppercase-to-lowercase fold (cui.c lines 1437-1441), so their codes lie
outside the ASCII letter range; `CUI_INPUT_EXECUTE` is the Enter key
(0x0D) and `CUI_INPUT_BACK` the Backspace key (0x08) per the help
screen text at cui.c lines 1749-1751.  Only distinctness and the
ESC/letter ranges matter for the claims. -/

/-- Decoded cursor-up command.  Modelled from the spec (see above). -/
def CUI_INPUT_UP : Nat := 0x80

/-- Decoded cursor-down command.  Modelled from the spec (see above). -/
def CUI_INPUT_DOWN : Nat := 0x81

/-- Decoded cursor-right command.  Modelled from the spec (see above). -/
def CUI_INPUT_RIGHT : Nat := 0x82

/-- Decoded cursor-left command.  Modelled from the spec (see above). -/
def CUI_INPUT_LEFT : Nat := 0x83

/-- The Enter key.  Modelled from the spec (see above). -/
def CUI_INPUT_EXECUTE : Nat := 0x0D

/-- The Backspace key.  Modelled from the spec (see above). -/
def CUI_INPUT_BACK : Nat := 0x08

/-- The escape byte (0x1B, spec §4.3). -/
def CUI_INPUT_ESC : Nat := 0x1B

/-- The five-byte input window `ESC [ A` (`CUI_ESC_UP`, cui.c line 73)
as received in `gUartTxBuffer`. -/
def escUpWindow : List Nat := [0x1B, 0x5B, 0x41, 0, 0]

/-- The five-byte input window `ESC [ D` (`CUI_ESC_LEFT`, cui.c line
76). -/
def escLeftWindow : List Nat := [0x1B, 0x5B, 0x44, 0, 0]

/-- The escape-sequence decoding of `CUI_processMenuUpdate` (cui.c
lines 1405-1433).  `buf` is the five-byte `gUartTxBuffer`.  Each arrow
comparison is a `memcmp` over `sizeof("\x1b[X")` = 4 bytes; the
bare-escape comparison (`CUI_ESC_ESC`, `"\x1b\0\0\0\0"`) has
`sizeof` = 6 and so also reads the byte just past the 5-byte buffer —
that byte is the first byte of the adjacent `gUartRxBuffer`, which is
zero after every completed read, so the model compares the five
in-bounds bytes.  `none` is the `inputBad` outcome: the window is
dropped. -/
def CUI_decodeEscInput (buf : List Nat) : Option Nat :=
  let input := buf.getD 0 0
  if input = CUI_INPUT_ESC then
    if buf.take 4 = [0x1B, 0x5B, 0x41, 0] then some CUI_INPUT_UP
    else if buf.take 4 = [0x1B, 0x5B, 0x42, 0] then some CUI_INPUT_DOWN
    else if buf.take 4 = [0x1B, 0x5B, 0x43, 0] then some CUI_INPUT_RIGHT
    else if buf.take 4 = [0x1B, 0x5B, 0x44, 0] then some CUI_INPUT_LEFT
    else if buf.take 5 ≠ [0x1B, 0, 0, 0, 0] then none
    else some input
  else some input

/-- The uppercase fold of cui.c lines 1437-1441: ASCII `A`-`Z` gets 32
added. -/
def CUI_foldUppercase (input : Nat) : Nat :=
  if 0x41 ≤ input ∧ input ≤ 0x5A then input + 32 else input

/-- `CUI_menuNavDir_t` (cui.c lines 106-110). -/
inductive CUI_menuNavDir_t where
  | CUI_MENU_NAV_LEFT
  | CUI_MENU_NAV_RIGHT
  deriving DecidableEq, Repr

/-- The item the cursor is on (`gpCurrMenu->menuItems[gCurrMenuItemEntry]`,
cui.c line 1401). -/
def currItem (st : MenuState) : CUI_menuItem_t :=
  match st.gpCurrMenu with
  | none => defaultMenuItem
  | some m => (st.store m).menuItems.getD st.gCurrMenuItemEntry.toNat defaultMenuItem

/-- `CUI_menuActionNavigate` (cui.c lines 2258-2278): no-op on a
one-item menu, otherwise move the cursor index with wraparound (the
C `%` on `int32_t` truncates toward zero, i.e. `Int.tmod`). -/
def CUI_menuActionNavigate (st : MenuState) (navDir : CUI_menuNavDir_t) :
    MenuState :=
  match st.gpCurrMenu with
  | none => st
  | some m =>
    let n := (st.store m).numItems
    if n = 1 then st
    else
      match navDir with
      | .CUI_MENU_NAV_LEFT =>
          { st with gCurrMenuItemEntry :=
              (st.gCurrMenuItemEntry - 1 + (n : Int)).tmod (n : Int) }
      | .CUI_MENU_NAV_RIGHT =>
          { st with gCurrMenuItemEntry :=
              (st.gCurrMenuItemEntry + 1 + (n : Int)).tmod (n : Int) }

/-- `CUI_menuActionBack` (cui.c lines 1732-1739): pop to the parent
menu if there is one, restoring the remembered item index. -/
def CUI_menuActionBack (st : MenuState) : MenuState :=
  match st.gpCurrMenu with
  | none => st
  | some m =>
    match (st.store m).pUpper with
    | some u =>
        { st with gpCurrMenu := some u,
                  gCurrMenuItemEntry := st.gPrevMenuItemEntry }
    | none => st

/-- `CUI_menuActionExecute` (cui.c lines 2280-2307): a `NULL`
description means the item is a sub-menu — push into it, remembering
the current index; otherwise invoke the item's action (only the
module's own `CUI_menuActionBack` touches the navigation state;
client callbacks do not). -/
def CUI_menuActionExecute (st : MenuState) : MenuState :=
  match st.gpCurrMenu with
  | none => st
  | some m =>
    let it := (st.store m).menuItems.getD st.gCurrMenuItemEntry.toNat
      defaultMenuItem
    match it.pDesc with
    | none =>
      match it.item with
      | .pSubMenu sub =>
          { st with gpCurrMenu := some sub,
                    gPrevMenuItemEntry := st.gCurrMenuItemEntry,
                    gCurrMenuItemEntry := 0 }
      | _ =>
          -- the C reinterprets the union as a sub-menu pointer; an item
          -- without a description always holds one in defined states
          st
    | some _ =>
      match it.item with
      | .pFnAction .menuActionBack => CUI_menuActionBack st
      | _ => st

/-- `CUI_handleMenuIntercept` (cui.c lines 1848-1937), restricted to
its effect on the navigation state: toggling the current item's
`interceptActive` flag and reporting whether the keystroke was
consumed.  The handler invocations and the display/cursor overlay are
rendering-only.  Returns `(updateHandled, state)`. -/
def CUI_handleMenuIntercept (st : MenuState) (input : Nat) :
    Bool × MenuState :=
  match st.gpCurrMenu with
  | none => (false, st)
  | some m =>
    let idx := st.gCurrMenuItemEntry.toNat
    let it := (st.store m).menuItems.getD idx defaultMenuItem
    if it.interceptable then
      if it.interceptActive then
        if input = CUI_INPUT_EXECUTE ∨ input = CUI_INPUT_ESC then
          -- stop/cancel: clear the flag and notify the handler
          (true, { st with store := (updMenu st.store m
            (fun mn => setItem mn idx { it with interceptActive := false })) })
        else
          -- stays active: the key is forwarded to the handler verbatim
          (true, st)
      else if input = CUI_INPUT_EXECUTE then
        -- start intercepting; the handler gets the synthetic start signal
        (true, { st with store := (updMenu st.store m
          (fun mn => setItem mn idx { it with interceptActive := true })) })
      else (false, st)
    else (false, st)

/-- The input dispatch of `CUI_processMenuUpdate` after decoding (cui.c
lines 1450-1507): the interceptable current item gets first refusal,
then the switch over the command alphabet. -/
def CUI_applyInput (st : MenuState) (input : Nat) : MenuState :=
  let interceptState := (currItem st).interceptActive
  let hm := CUI_handleMenuIntercept st input
  if hm.1 then hm.2
  else
    let st := hm.2
    if input = CUI_INPUT_UP then st
    else if input = CUI_INPUT_RIGHT then
      CUI_menuActionNavigate st .CUI_MENU_NAV_RIGHT
    else if input = CUI_INPUT_DOWN then st
    else if input = CUI_INPUT_LEFT then
      CUI_menuActionNavigate st .CUI_MENU_NAV_LEFT
    else if input = CUI_INPUT_EXECUTE then CUI_menuActionExecute st
    else if input = CUI_INPUT_BACK then
      match st.gpCurrMenu with
      | none => st
      | some m =>
        match (st.store m).pUpper with
        | some u =>
            { st with gpCurrMenu := some u,
                      gCurrMenuItemEntry := st.gPrevMenuItemEntry }
        | none =>
            -- already at the main menu: jump to the help screen
            { st with gCurrMenuItemEntry := ((st.store m).numItems : Int) - 1 }
    else if input = CUI_INPUT_ESC then
      if interceptState ∧ !(currItem st).interceptActive then
        -- intercept just turned itself off this cycle: display-only refresh
        st
      else
        { st with gpCurrMenu := st.gpMainMenu,
                  gCurrMenuItemEntry :=
                    ((st.store (st.gpMainMenu.getD multiMenuId)).numItems : Int) - 1 }
    else st

/-- `CUI_processMenuUpdate` (cui.c lines 1394-1515) on the navigation
state: decode the five-byte input window (a `none` decode is the
`inputBad` path — the window is dropped and the navigation state is
untouched), fold uppercase letters, then dispatch. -/
def CUI_processMenuUpdate (st : MenuState) (gUartTxBuffer : List Nat) :
    MenuState :=
  match CUI_decodeEscInput gUartTxBuffer with
  | none => st
  | some raw => CUI_applyInput st (CUI_foldUppercase raw)

/-!
## Menu registration scenarios and the multi-menu invariant (claim C2)
-/

/-- Number of currently registered top-level menus (occupied
`gMenuResources` slots). -/
def menuRegCount (st : MenuState) : Nat :=
  st.gMenuResources.countP occupiedSlot

/-- The synthetic multi-menu is in use as the root menu. -/
def multiMenuInUse (st : MenuState) : Prop :=
  st.gpMainMenu = some multiMenuId

/-- The menu-engine state right after `CUI_init` for an arbitrary menu
store `S`: every resource slot free, no root menu. -/
def initialMenuState (S : Nat → CUI_menu_t) : MenuState :=
  { store := S,
    gMenuResources := List.replicate MAX_REGISTERED_MENUS (0, none),
    gpMainMenu := none, gpCurrMenu := none,
    gCurrMenuItemEntry := 0, gPrevMenuItemEntry := 0 }

/-- A register or deregister call issued by some client. -/
inductive MenuOp where
  | reg (h m : Nat)
  | dereg (h m : Nat)
  deriving DecidableEq, Repr

/-- The client hash carried by a menu operation. -/
def MenuOp.hash : MenuOp → Nat
  | .reg h _ => h
  | .dereg h _ => h

/-- The menu pointer carried by a menu operation. -/
def MenuOp.menuId : MenuOp → Nat
  | .reg _ m => m
  | .dereg _ m => m

/-- One register/deregister call, keeping only the state. -/
def menuStep (st : MenuState) : MenuOp → MenuState
  | .reg h m => (CUI_registerMenu st h m).2
  | .dereg h m => (CUI_deRegisterMenu st h m).2

/-- Run a sequence of register/deregister calls. -/
def menuRun (st : MenuState) : List MenuOp → MenuState
  | [] => st
  | op :: ops => menuRun (menuStep st op) ops

/-- The menu-engine state right after `CUI_init`, with client menus A
and B allocated (but not yet registered) at identifiers 1 and 2. -/
def scenarioInitState (A B : CUI_menu_t) : MenuState :=
  initialMenuState (fun id => if id = 1 then A else if id = 2 then B
    else if id = multiMenuId then cuiMultiMenu_init else defaultMenu)

/-- The scenario state after menu A (identifier 1, client hash `hA`)
is the only registered menu. -/
def scenarioState1 (A B : CUI_menu_t) (hA : Nat) : MenuState :=
  { scenarioInitState A B with
      gMenuResources := [(hA, some 1), (0, none), (0, none), (0, none)],
      gpMainMenu := some 1, gpCurrMenu := some 1,
      gCurrMenuItemEntry := (A.numItems : Int) - 1 }

/-- The scenario state after a second menu B (identifier 2, client
hash `hB`) registers: the multi-menu (identifier 0) holds items
[A, B, Help] and is the root; both client menus' trailing items are
rewritten to Back and their upper pointers aim at the multi-menu. -/
def scenarioState2 (A B : CUI_menu_t) (hA hB : Nat) : MenuState :=
  { store := fun id =>
      if id = 1 then
        { A with pUpper := some multiMenuId,
                 menuItems := A.menuItems.set (A.numItems - 1) backMenuItem }
      else if id = 2 then
        { B with pUpper := some multiMenuId,
                 menuItems := B.menuItems.set (B.numItems - 1) backMenuItem }
      else if id = multiMenuId then
        { uartUpdateFn := A.uartUpdateFn, pTitle := " TI DMM Application ",
          numItems := 3, pUpper := none,
          menuItems := [⟨false, false, none, .pSubMenu 1⟩,
            ⟨false, false, none, .pSubMenu 2⟩, helpMenuItem,
            defaultMenuItem, defaultMenuItem] }
      else defaultMenu,
    gMenuResources := [(hA, some 1), (hB, some 2), (0, none), (0, none)],
    gpMainMenu := some multiMenuId, gpCurrMenu := some multiMenuId,
    gCurrMenuItemEntry := 2, gPrevMenuItemEntry := 0 }

/-- The scenario state after menu B deregisters again: menu A is the
single root once more (same pointer and item count as in
`scenarioState1`), its trailing item restored to Help; the multi-menu
is retired with `numItems = 0`. -/
def scenarioState3 (A B : CUI_menu_t) (hA _hB : Nat) : MenuState :=
  { store := fun id =>
      if id = 1 then
        { A with pUpper := some multiMenuId,
                 menuItems := A.menuItems.set (A.numItems - 1) helpMenuItem }
      else if id = 2 then
        { B with pUpper := some multiMenuId,
                 menuItems := B.menuItems.set (B.numItems - 1) backMenuItem }
      else if id = multiMenuId then
        { uartUpdateFn := A.uartUpdateFn, pTitle := " TI DMM Application ",
          numItems := 0, pUpper := none,
          menuItems := [⟨false, false, none, .pSubMenu 1⟩,
            ⟨false, false, none, .pSubMenu 2⟩, helpMenuItem,
            defaultMenuItem, defaultMenuItem] }
      else defaultMenu,
    gMenuResources := [(hA, some 1), (0, none), (0, none), (0, none)],
    gpMainMenu := some 1, gpCurrMenu := some 1,
    gCurrMenuItemEntry := (A.numItems : Int) - 1, gPrevMenuItemEntry := 0 }

/-!
## Helper lemmas
-/

theorem findFirstIdx_some_lt {α : Type} (p : α → Bool) (l : List α) (i : Nat)
    (h : findFirstIdx p l = some i) : i < l.length := by
  induction l generalizing i with
  | nil => simp [findFirstIdx] at h
  | cons a t ih =>
    rw [findFirstIdx] at h
    by_cases hp : p a
    · rw [if_pos hp] at h
      cases h
      simp
    · rw [if_neg hp] at h
      cases h' : findFirstIdx p t with
      | none => rw [h'] at h; simp at h
      | some j =>
        rw [h'] at h
        simp only [Option.map_some'] at h
        cases h
        have := ih j h'
        simpa using Nat.succ_lt_succ this

theorem findFirstIdx_some_getD {α : Type} (p : α → Bool) (l : List α)
    (i : Nat) (d : α) (h : findFirstIdx p l = some i) :
    p (l.getD i d) = true := by
  induction l generalizing i with
  | nil => simp [findFirstIdx] at h
  | cons a t ih =>
    rw [findFirstIdx] at h
    by_cases hp : p a
    · rw [if_pos hp] at h
      cases h
      simpa using hp
    · rw [if_neg hp] at h
      cases h' : findFirstIdx p t with
      | none => rw [h'] at h; simp at h
      | some j =>
        rw [h'] at h
        simp only [Option.map_some'] at h
        cases h
        simpa using ih j h'

theorem findFirstIdx_isSome_of_mem {α : Type} [DecidableEq α] (l : List α)
    (x : α) (hx : x ∈ l) : (findFirstIdx (fun c => c = x) l).isSome := by
  induction l with
  | nil => simp at hx
  | cons a t ih =>
    rw [findFirstIdx]
    by_cases hp : a = x
    · simp [hp]
    · have hd : (decide (a = x)) = false := by simp [hp]
      rw [hd, if_neg (by simp)]
      rcases List.mem_cons.mp hx with h1 | h2
      · exact absurd h1.symm hp
      · have := ih h2
        cases h' : findFirstIdx (fun c => decide (c = x)) t with
        | none => rw [h'] at this; simp at this
        | some j => simp

theorem getD_set_self {α : Type} (l : List α) (i : Nat) (x d : α)
    (h : i < l.length) : (l.set i x).getD i d = x := by
  rw [List.getD_eq_getElem?_getD, List.getElem?_set_self h]
  rfl

theorem getD_set_ne {α : Type} (l : List α) (i j : Nat) (x d : α)
    (h : i ≠ j) : (l.set i x).getD j d = l.getD j d := by
  rw [List.getD_eq_getElem?_getD, List.getElem?_set_ne h,
    ← List.getD_eq_getElem?_getD]

theorem CUI_getClientIndex_ne_neg_one (gClientHandles : List Nat) (h : Nat)
    (hmem : h ∈ gClientHandles) : CUI_getClientIndex gClientHandles h ≠ -1 := by
  unfold CUI_getClientIndex
  have := findFirstIdx_isSome_of_mem gClientHandles h hmem
  cases h' : findFirstIdx (fun c => c = h) gClientHandles with
  | none => rw [h'] at this; simp at this
  | some i =>
    show (i : Int) ≠ -1
    omega

theorem CUI_validateHandle_success (gClientHandles : List Nat) (h : Nat)
    (h0 : h ≠ 0) (hmem : h ∈ gClientHandles) :
    CUI_validateHandle gClientHandles h = CUI_SUCCESS := by
  unfold CUI_validateHandle
  rw [if_neg h0, if_neg (CUI_getClientIndex_ne_neg_one gClientHandles h hmem)]

theorem CUI_publicUartAPIChecks_success (g : GlobalFlags)
    (gClientHandles : List Nat) (h : Nat) (hu : g.gManageUart = true)
    (hi : g.gModuleInitialized = true) (h0 : h ≠ 0)
    (hmem : h ∈ gClientHandles) :
    CUI_publicUartAPIChecks g gClientHandles h = CUI_SUCCESS := by
  unfold CUI_publicUartAPIChecks CUI_publicAPIChecks
  rw [hu, hi]
  simpa using CUI_validateHandle_success gClientHandles h h0 hmem

theorem CUI_publicBtnsAPIChecks_success (g : GlobalFlags)
    (gClientHandles : List Nat) (h : Nat) (hb : g.gManageBtns = true)
    (hi : g.gModuleInitialized = true) (h0 : h ≠ 0)
    (hmem : h ∈ gClientHandles) :
    CUI_publicBtnsAPIChecks g gClientHandles h = CUI_SUCCESS := by
  unfold CUI_publicBtnsAPIChecks CUI_publicAPIChecks
  rw [hb, hi]
  simpa using CUI_validateHandle_success gClientHandles h h0 hmem

theorem CUI_publicLedsAPIChecks_success (g : GlobalFlags)
    (gClientHandles : List Nat) (h : Nat) (hl : g.gManageLeds = true)
    (hi : g.gModuleInitialized = true) (h0 : h ≠ 0)
    (hmem : h ∈ gClientHandles) :
    CUI_publicLedsAPIChecks g gClientHandles h = CUI_SUCCESS := by
  unfold CUI_publicLedsAPIChecks CUI_publicAPIChecks
  rw [hl, hi]
  simpa using CUI_validateHandle_success gClientHandles h h0 hmem

theorem CUI_writeString_pollLoop_allFalse (flag : Nat → Bool) :
    ∀ (fuel i : Nat), (∀ j, i < j → j ≤ i + fuel → flag j = false) →
    CUI_writeString_pollLoop flag fuel i = (false, List.replicate fuel 1000) := by
  intro fuel
  induction fuel with
  | zero => intro i _; rfl
  | succ n ih =>
    intro i h
    rw [CUI_writeString_pollLoop]
    rw [h (i + 1) (by omega) (by omega)]
    rw [ih (i + 1) (fun j hj1 hj2 => h j (by omega) (by omega))]
    simp [List.replicate_succ]

theorem CUI_writeString_pollLoop_length_le (flag : Nat → Bool) :
    ∀ (fuel i : Nat), (CUI_writeString_pollLoop flag fuel i).2.length ≤ fuel := by
  intro fuel
  induction fuel with
  | zero => intro i; simp [CUI_writeString_pollLoop]
  | succ n ih =>
    intro i
    rw [CUI_writeString_pollLoop]
    by_cases hf : flag (i + 1)
    · rw [if_pos hf]; simp
    · rw [if_neg hf]
      have := ih (i + 1)
      simpa using Nat.succ_le_succ this

/-- **C9.**  When `CUI_writeString` is called while the previous
asynchronous write has not completed (the completion flag reads false
at the initial check), it polls the flag at most 10 more times, each
preceded by a fixed `Task_sleep(1000)`; if the flag is still unset
after the 10th attempt it returns `CUI_PREV_WRITE_UNFINISHED` without
issuing the `UART_write` (the frame is dropped), and in every execution
the number of sleep/poll attempts is at most 10. -/
theorem claim_C9_writeString_bounded_retry :
    (∀ flag : Nat → Bool, flag 0 = false →
      (∀ i, 1 ≤ i → i ≤ 10 → flag i = false) →
      CUI_writeString false false flag
        = (CUI_retVal_t.CUI_PREV_WRITE_UNFINISHED, false, List.replicate 10 1000)) ∧
    (∀ (uartNull bufNull : Bool) (flag : Nat → Bool),
      ((CUI_writeString uartNull bufNull flag).2.2).length ≤ 10) := by
  constructor
  · intro flag h0 hall
    unfold CUI_writeString
    rw [Bool.or_self, if_neg Bool.false_ne_true, h0]
    rw [CUI_writeString_pollLoop_allFalse flag 10 0
      (fun j hj1 hj2 => hall j (by omega) (by omega))]
    rfl
  · intro uartNull bufNull flag
    unfold CUI_writeString
    by_cases hn : (uartNull || bufNull) = true
    · rw [if_pos hn]; simp
    · rw [if_neg hn]
      by_cases h0 : flag 0
      · rw [if_pos h0]; simp
      · rw [if_neg h0]
        have := CUI_writeString_pollLoop_length_le flag 10 0
        by_cases hp : (CUI_writeString_pollLoop flag 10 0).1
        · rw [if_pos hp]; simpa using this
        · rw [if_neg hp]; simpa using this

/-- Witness for C9 at the concrete environment whose completion flag
never gets set. -/
theorem claim_C9_writeString_bounded_retry_witness :
    CUI_writeString false false (fun _ => false)
      = (CUI_retVal_t.CUI_PREV_WRITE_UNFINISHED, false, List.replicate 10 1000) ∧
    ((CUI_writeString false false (fun _ => false)).2.2).length ≤ 10 :=
  ⟨claim_C9_writeString_bounded_retry.1 (fun _ => false) rfl (fun _ _ _ => rfl),
   claim_C9_writeString_bounded_retry.2 false false (fun _ => false)⟩

/-- **C10.**  `CUI_btnGetValue` returns `CUI_SUCCESS` and stores the
raw GPIO state of the requested button for every client handle and
every module state — its result does not depend on the module flags,
the client table, or the button ownership table (all its checks are
commented out in the source).  In contrast, the other button/LED
operations reject the same call when the module is uninitialized or the
resource class is unmanaged. -/
theorem claim_C10_btnGetValue_unchecked :
    (∀ (g : GlobalFlags) (gClientHandles : List Nat)
       (res : List CUI_btnResource_t) (clientHandle : Nat)
       (gpioRead : Nat → Bool) (index : Nat),
      CUI_btnGetValue g gClientHandles res clientHandle gpioRead index
        = (CUI_retVal_t.CUI_SUCCESS, gpioRead index)) ∧
    (∀ (gClientHandles : List Nat) (res : List CUI_btnResource_t)
       (lres : List CUI_ledResource_t) (h index : Nat)
       (req : Option (Nat × Option Nat)) (lreq : Option Nat),
      (CUI_btnResourceRequest ⟨false, true, true, true⟩ gClientHandles res h req).1
        = CUI_retVal_t.CUI_MODULE_UNINITIALIZED ∧
      (CUI_btnResourceRelease ⟨false, true, true, true⟩ gClientHandles res h index).1
        = CUI_retVal_t.CUI_MODULE_UNINITIALIZED ∧
      (CUI_ledResourceRequest ⟨false, true, true, true⟩ gClientHandles lres h lreq).1
        = CUI_retVal_t.CUI_MODULE_UNINITIALIZED ∧
      (CUI_ledResourceRelease ⟨false, true, true, true⟩ gClientHandles lres h index).1
        = CUI_retVal_t.CUI_MODULE_UNINITIALIZED ∧
      (CUI_btnResourceRequest ⟨true, false, true, true⟩ gClientHandles res h req).1
        = CUI_retVal_t.CUI_NOT_MANAGING_BTNS) :=
  ⟨fun _ _ _ _ _ _ => rfl,
   fun _ _ _ _ _ _ _ => ⟨rfl, rfl, rfl, rfl, rfl⟩⟩

theorem clientOpen_hash_foldl (l : List Nat) :
    ∀ a : Nat, l.foldl (fun h b => (h + b) % 2 ^ 32) (a % 2 ^ 32)
      = (a + l.sum) % 2 ^ 32 := by
  induction l with
  | nil => intro a; simp
  | cons b t ih =>
    intro a
    rw [List.foldl_cons, Nat.mod_add_mod, ih (a + b)]
    rw [List.sum_cons]
    ring_nf

theorem CUI_clientOpen_hash_eq_sum (name : List Nat)
    (hbound : name.sum < 2 ^ 32) : CUI_clientOpen_hash name = name.sum := by
  unfold CUI_clientOpen_hash
  have h0 : (0 : Nat) = 0 % 2 ^ 32 := rfl
  rw [h0, clientOpen_hash_foldl]
  simp only [List.sum_append, List.sum_cons, List.sum_nil, zero_add, add_zero]
  omega

theorem sum_le_mul_length (l : List Nat) (h : ∀ b ∈ l, b ≤ 255) :
    l.sum ≤ 255 * l.length := by
  induction l with
  | nil => simp
  | cons b t ih =>
    rw [List.sum_cons, List.length_cons]
    have hb := h b (List.mem_cons_self b t)
    have ht := ih (fun x hx => h x (List.mem_cons_of_mem b hx))
    omega

/-- **C5 (amended).**  For every client opened with a nonempty name (of
any realistic length — at most `2 ^ 24` bytes, far beyond the fixed
name buffer), the hash `CUI_clientOpen` computes and returns is
nonzero; the open path returns exactly that hash whenever the module is
initialized and the client table is below capacity; and the value 0 is
the sentinel for an unowned resource / absent client
(`CUI_validateHandle` rejects it outright).  The original claim fails
for the empty name, whose additive hash is 0 — see the
counterexample. -/
theorem claim_C5_clientHash_nonzero :
    (∀ name : List Nat, name ≠ [] → (∀ b ∈ name, 1 ≤ b ∧ b ≤ 255) →
      name.length ≤ 2 ^ 24 → CUI_clientOpen_hash name ≠ 0) ∧
    (∀ (gClientHandles gMaxStatusLines : List Nat) (gManageUart : Bool)
       (name : List Nat) (maxStatusLines : Nat),
      gClientHandles.countP (fun c => c ≠ 0) < MAX_CLIENTS →
      (CUI_clientOpen true gClientHandles gMaxStatusLines gManageUart
          name maxStatusLines).1
        = ClientOpenResult.openedHash (CUI_clientOpen_hash name)) ∧
    (∀ gClientHandles : List Nat,
      CUI_validateHandle gClientHandles 0
        = CUI_retVal_t.CUI_INVALID_CLIENT_HANDLE) := by
  refine ⟨?_, ?_, ?_⟩
  · intro name hne hb hlen
    have hsum_le : name.sum ≤ 255 * name.length :=
      sum_le_mul_length name (fun b hbm => (hb b hbm).2)
    have hlt : name.sum < 2 ^ 32 := by
      have : 255 * name.length ≤ 255 * 2 ^ 24 :=
        Nat.mul_le_mul_left 255 hlen
      omega
    rw [CUI_clientOpen_hash_eq_sum name hlt]
    match name, hne with
    | b :: t, _ =>
      have h1 : 1 ≤ b := (hb b (List.mem_cons_self b t)).1
      rw [List.sum_cons]
      omega
  · intro gClientHandles gMaxStatusLines gManageUart name maxStatusLines hcap
    unfold CUI_clientOpen
    rw [if_neg (by simp)]
    rw [if_neg (by omega)]
  · intro gClientHandles
    rfl

/-- Witness for C5 at the one-byte name `"A"` (byte 65). -/
theorem claim_C5_clientHash_nonzero_witness :
    CUI_clientOpen_hash [65] ≠ 0 ∧
    (CUI_clientOpen true [0, 0, 0, 0] [0, 0, 0, 0] true [65] 1).1
      = ClientOpenResult.openedHash (CUI_clientOpen_hash [65]) ∧
    CUI_validateHandle [0, 0, 0, 0] 0
      = CUI_retVal_t.CUI_INVALID_CLIENT_HANDLE :=
  ⟨claim_C5_clientHash_nonzero.1 [65] (by decide) (by decide) (by decide),
   claim_C5_clientHash_nonzero.2.1 [0, 0, 0, 0] [0, 0, 0, 0] true [65] 1
     (by decide),
   claim_C5_clientHash_nonzero.2.2 [0, 0, 0, 0]⟩

/-- **C5 counterexample.**  Opening a client with the empty name string
runs the full open path of `CUI_clientOpen` (module initialized, table
below capacity — not the early `NULL` returns) yet computes and returns
the hash 0, the very value reserved as the unowned/absent sentinel.
This refutes the claim that the returned hash is nonzero for *any*
client name string. -/
theorem claim_C5_counterexample :
    (CUI_clientOpen true [0, 0, 0, 0] [0, 0, 0, 0] true [] 1).1
      = ClientOpenResult.openedHash 0 ∧
    ((CUI_clientOpen true [0, 0, 0, 0] [0, 0, 0, 0] true [] 1).1).wireValue
      = 0 := by
  constructor <;> rfl

theorem nav_right_iterate (st : MenuState) (m N : Nat)
    (hc : st.gpCurrMenu = some m) (hn : (st.store m).numItems = N)
    (h2 : 2 ≤ N) (he0 : 0 ≤ st.gCurrMenuItemEntry)
    (heN : st.gCurrMenuItemEntry < (N : Int)) :
    ∀ k : Nat,
      (fun s => CUI_menuActionNavigate s CUI_menuNavDir_t.CUI_MENU_NAV_RIGHT)^[k] st
        = { st with gCurrMenuItemEntry :=
              (st.gCurrMenuItemEntry + k) % (N : Int) } := by
  intro k
  induction k with
  | zero =>
    simp only [Function.iterate_zero, id_eq, Nat.cast_zero, add_zero]
    rw [Int.emod_eq_of_lt he0 heN]
  | succ k ih =>
    rw [Function.iterate_succ_apply', ih]
    have hNpos : (0 : Int) < (N : Int) := by exact_mod_cast Nat.lt_of_lt_of_le Nat.zero_lt_two h2
    have hr0 : 0 ≤ (st.gCurrMenuItemEntry + k) % (N : Int) :=
      Int.emod_nonneg _ (by omega)
    unfold CUI_menuActionNavigate
    rw [hc]
    simp only [hn]
    rw [if_neg (by omega)]
    have htmod : ((st.gCurrMenuItemEntry + k) % (N : Int) + 1 + (N : Int)).tmod (N : Int)
        = ((st.gCurrMenuItemEntry + k) % (N : Int) + 1 + (N : Int)) % (N : Int) :=
      Int.tmod_eq_emod (by omega) (by omega)
    rw [htmod]
    have hstep : ((st.gCurrMenuItemEntry + k) % (N : Int) + 1 + (N : Int)) % (N : Int)
        = (st.gCurrMenuItemEntry + (k + 1 : Nat)) % (N : Int) := by
      have e1 : ((st.gCurrMenuItemEntry + k) % (N : Int) + 1 + (N : Int)) % (N : Int)
          = ((st.gCurrMenuItemEntry + k) % (N : Int) + 1) % (N : Int) := by
        have hmo := Int.add_mul_emod_self_left
          (a := (st.gCurrMenuItemEntry + k) % (N : Int) + 1) (b := (N : Int)) (c := 1)
        rw [mul_one] at hmo
        exact hmo
      rw [e1]
      have e2 : ((st.gCurrMenuItemEntry + k) % (N : Int) + 1) % (N : Int)
          = (st.gCurrMenuItemEntry + k + 1) % (N : Int) := by
        conv_rhs => rw [Int.add_emod]
        have h1N : (1 : Int) % (N : Int) = 1 := Int.emod_eq_of_lt (by omega) (by omega)
        rw [h1N]
      rw [e2]
      push_cast
      ring_nf
    rw [hstep]

/-- **C7.**  Left/Right navigation on an N-item menu is cyclic: for
every menu with `N ≥ 1` items and every in-range starting index, `N`
consecutive RIGHT moves return the cursor to the starting index; and on
a one-item menu both LEFT and RIGHT are no-ops
(`CUI_menuActionNavigate` returns the state unchanged). -/
theorem claim_C7_nav_right_cyclic :
    (∀ (st : MenuState) (m N : Nat),
      st.gpCurrMenu = some m → (st.store m).numItems = N → 1 ≤ N →
      0 ≤ st.gCurrMenuItemEntry → st.gCurrMenuItemEntry < (N : Int) →
      ((fun s => CUI_menuActionNavigate s CUI_menuNavDir_t.CUI_MENU_NAV_RIGHT)^[N] st).gCurrMenuItemEntry
        = st.gCurrMenuItemEntry) ∧
    (∀ (st : MenuState) (m : Nat),
      st.gpCurrMenu = some m → (st.store m).numItems = 1 →
      CUI_menuActionNavigate st CUI_menuNavDir_t.CUI_MENU_NAV_LEFT = st ∧
      CUI_menuActionNavigate st CUI_menuNavDir_t.CUI_MENU_NAV_RIGHT = st) := by
  constructor
  · intro st m N hc hn hN1 he0 heN
    rcases Nat.lt_or_ge N 2 with hN | hN
    · -- N = 1: navigation is the identity
      have hN' : N = 1 := by omega
      subst hN'
      have hfix : CUI_menuActionNavigate st CUI_menuNavDir_t.CUI_MENU_NAV_RIGHT = st := by
        unfold CUI_menuActionNavigate
        rw [hc]
        simp [hn]
      rw [Function.iterate_fixed hfix]
    · rw [nav_right_iterate st m N hc hn hN he0 heN N]
      show (st.gCurrMenuItemEntry + (N : Int)) % (N : Int) = st.gCurrMenuItemEntry
      have hself : (st.gCurrMenuItemEntry + (N : Int)) % (N : Int)
          = st.gCurrMenuItemEntry % (N : Int) := by
        have hmo := Int.add_mul_emod_self_left
          (a := st.gCurrMenuItemEntry) (b := (N : Int)) (c := 1)
        rw [mul_one] at hmo
        exact hmo
      rw [hself]
      exact Int.emod_eq_of_lt he0 heN
  · intro st m hc hn
    constructor <;>
      (unfold CUI_menuActionNavigate; rw [hc]; simp [hn])

/-- A concrete two-item menu used for navigation witnesses. -/
def navWitnessMenu : CUI_menu_t :=
  ⟨some 1, "W", 2, none,
    [⟨false, false, some "w0", .pFnAction (.clientAction 0)⟩,
     ⟨false, false, some "w1", .pFnAction (.clientAction 0)⟩]⟩

/-- A concrete navigation state sitting on `navWitnessMenu`. -/
def navWitnessState : MenuState :=
  { store := fun id => if id = 1 then navWitnessMenu else defaultMenu,
    gMenuResources := [(7, some 1), (0, none), (0, none), (0, none)],
    gpMainMenu := some 1, gpCurrMenu := some 1,
    gCurrMenuItemEntry := 0, gPrevMenuItemEntry := 0 }

/-- A concrete one-item menu. -/
def oneItemMenu : CUI_menu_t :=
  ⟨some 1, "O", 1, none, [⟨false, false, some "o0", .pFnAction (.clientAction 0)⟩]⟩

/-- A concrete navigation state sitting on `oneItemMenu`. -/
def oneItemState : MenuState :=
  { store := fun id => if id = 2 then oneItemMenu else defaultMenu,
    gMenuResources := [(7, some 2), (0, none), (0, none), (0, none)],
    gpMainMenu := some 2, gpCurrMenu := some 2,
    gCurrMenuItemEntry := 0, gPrevMenuItemEntry := 0 }

/-- Witness for C7 on a concrete two-item menu and a concrete one-item
menu. -/
theorem claim_C7_nav_right_cyclic_witness :
    ((fun s => CUI_menuActionNavigate s CUI_menuNavDir_t.CUI_MENU_NAV_RIGHT)^[2]
        navWitnessState).gCurrMenuItemEntry
      = navWitnessState.gCurrMenuItemEntry ∧
    (CUI_menuActionNavigate oneItemState CUI_menuNavDir_t.CUI_MENU_NAV_LEFT
        = oneItemState ∧
     CUI_menuActionNavigate oneItemState CUI_menuNavDir_t.CUI_MENU_NAV_RIGHT
        = oneItemState) :=
  ⟨claim_C7_nav_right_cyclic.1 navWitnessState 1 2 rfl rfl (by decide)
      (by decide) (by decide),
   claim_C7_nav_right_cyclic.2 oneItemState 2 rfl rfl⟩

/-- A concrete UART-side state with one open client (hash 7, quota 1)
whose single status-line slot was never acquired. -/
def neverAcquiredState : StatusState :=
  { g := ⟨true, true, true, true⟩,
    gClientHandles := [7, 0, 0, 0],
    gMaxStatusLines := [1, 0, 0, 0],
    gStatusLineResources := [[zeroStatusLine], [], [], []],
    currStatusBuff := 0, writes := [] }

/-- **C3 (amended).**  `CUI_statusLinePrintf` on a line whose slot was
never acquired (owner hash still 0, the zero-initialized state) returns
the invalid-client-handle error — the owner-mismatch check at cui.c
line 1602 fires before the acquisition check at line 1607, because a
valid caller's nonzero hash can never equal the slot's 0 sentinel —
and performs no UART write and no state change.  The original claim
named the resource-not-acquired error; see the counterexample. -/
theorem claim_C3_statusLinePrintf_neverAcquired :
    ∀ (st : StatusState) (h lineId : Nat),
      st.g.gManageUart = true → st.g.gModuleInitialized = true →
      h ≠ 0 → h ∈ st.gClientHandles →
      ((st.gStatusLineResources.getD
          (CUI_getClientIndex st.gClientHandles h).toNat []).getD lineId
          zeroStatusLine).clientHash = 0 →
      CUI_statusLinePrintf st h lineId
        = (CUI_retVal_t.CUI_INVALID_CLIENT_HANDLE, st) := by
  intro st h lineId hu hi h0 hmem hslot
  unfold CUI_statusLinePrintf
  rw [CUI_publicUartAPIChecks_success st.g st.gClientHandles h hu hi h0 hmem]
  rw [if_neg (by simp)]
  rw [if_pos (by rw [hslot]; exact h0)]

/-- Witness for C3 on the concrete never-acquired state. -/
theorem claim_C3_statusLinePrintf_neverAcquired_witness :
    CUI_statusLinePrintf neverAcquiredState 7 0
      = (CUI_retVal_t.CUI_INVALID_CLIENT_HANDLE, neverAcquiredState) :=
  claim_C3_statusLinePrintf_neverAcquired neverAcquiredState 7 0 rfl rfl
    (by decide) (by decide) rfl

/-- **C3 counterexample.**  On the concrete state with one open client
(hash 7) and one never-acquired status-line slot, `CUI_statusLinePrintf`
returns `CUI_INVALID_CLIENT_HANDLE`, which is a different error code
from the `CUI_RESOURCE_NOT_ACQUIRED` the claim requires (all while
correctly performing no write and no state change). -/
theorem claim_C3_counterexample :
    (CUI_statusLinePrintf neverAcquiredState 7 0).1
      = CUI_retVal_t.CUI_INVALID_CLIENT_HANDLE ∧
    CUI_retVal_t.CUI_INVALID_CLIENT_HANDLE
      ≠ CUI_retVal_t.CUI_RESOURCE_NOT_ACQUIRED ∧
    (CUI_statusLinePrintf neverAcquiredState 7 0).2.writes = [] := by
  refine ⟨rfl, by decide, rfl⟩

theorem offset_foldl (l : List Nat) :
    ∀ a : Nat, l.foldl (fun acc q => acc + q + 1) a = a + l.sum + l.length := by
  induction l with
  | nil => intro a; simp
  | cons b t ih =>
    intro a
    rw [List.foldl_cons, ih (a + b + 1), List.sum_cons, List.length_cons]
    omega

theorem CUI_acquireStatusLine_offset_eq (quotas : List Nat) (ci fi : Nat)
    (hci : ci ≤ quotas.length) :
    CUI_acquireStatusLine_offset quotas ci fi
      = (quotas.take ci).sum + ci + fi := by
  unfold CUI_acquireStatusLine_offset
  rw [offset_foldl]
  have : (quotas.take ci).length = ci := by
    simp [List.length_take, Nat.min_eq_left hci]
  omega

/-- A concrete UART-side state with two open clients of status-line
quotas `[2, 3]` (hashes 10 and 20), no line acquired yet. -/
def twoClientState : StatusState :=
  { g := ⟨true, true, true, true⟩,
    gClientHandles := [10, 20, 0, 0],
    gMaxStatusLines := [2, 3, 0, 0],
    gStatusLineResources :=
      [[zeroStatusLine, zeroStatusLine],
       [zeroStatusLine, zeroStatusLine, zeroStatusLine], [], []],
    currStatusBuff := 0, writes := [] }

/-- **C8.**  Status-line offsets are assigned at acquisition time as
the sum of the quotas of all lower-indexed clients, plus one separator
line per preceding client, plus the slot index within the client; and
concretely, with two clients of quotas `[2, 3]`, the second client's
first acquired status line stores offset `2 + 1 + 0` and is printed at
terminal line `CUI_INITIAL_STATUS_OFFSET + (2 + 1 + 0)`. -/
theorem claim_C8_statusLine_offset :
    (∀ (st : StatusState) (h : Nat) (label : String) (fi : Nat)
       (st2 : StatusState),
      CUI_acquireStatusLine st h label
        = (CUI_retVal_t.CUI_SUCCESS, some fi, st2) →
      (CUI_getClientIndex st.gClientHandles h).toNat
          < st.gStatusLineResources.length →
      (CUI_getClientIndex st.gClientHandles h).toNat
          ≤ st.gMaxStatusLines.length →
      (st.gStatusLineResources.getD
          (CUI_getClientIndex st.gClientHandles h).toNat []).length
        = st.gMaxStatusLines.getD
            (CUI_getClientIndex st.gClientHandles h).toNat 0 →
      ((st2.gStatusLineResources.getD
          (CUI_getClientIndex st.gClientHandles h).toNat []).getD fi
          zeroStatusLine).lineOffset
        = (st.gMaxStatusLines.take
            (CUI_getClientIndex st.gClientHandles h).toNat).sum
          + (CUI_getClientIndex st.gClientHandles h).toNat + fi) ∧
    (((CUI_acquireStatusLine twoClientState 20 "L").2.2.gStatusLineResources.getD
        1 []).getD 0 zeroStatusLine).lineOffset = 2 + 1 + 0 ∧
    (CUI_statusLinePrintf
        (CUI_acquireStatusLine twoClientState 20 "L").2.2 20 0).2.writes
      = [CUI_INITIAL_STATUS_OFFSET + (2 + 1 + 0)] := by
  refine ⟨?_, rfl, rfl⟩
  intro st h label fi st2 heq hlt hle hlen
  cases hf : (List.range (st.gMaxStatusLines.getD
      (CUI_getClientIndex st.gClientHandles h).toNat 0)).find?
      (fun i => ((st.gStatusLineResources.getD
        (CUI_getClientIndex st.gClientHandles h).toNat []).getD i
        zeroStatusLine).status = CUI_RELEASED) with
  | none =>
    simp only [CUI_acquireStatusLine, hf] at heq
    simp at heq
  | some fi' =>
    simp only [CUI_acquireStatusLine, hf] at heq
    simp only [Prod.mk.injEq] at heq
    obtain ⟨-, hfi, hst2⟩ := heq
    cases hfi
    have hfi_lt : fi < st.gMaxStatusLines.getD
        (CUI_getClientIndex st.gClientHandles h).toNat 0 :=
      List.mem_range.mp (List.mem_of_find?_eq_some hf)
    rw [← hst2]
    rw [getD_set_self _ _ _ _ hlt]
    rw [getD_set_self _ _ _ _ (by rw [hlen]; exact hfi_lt)]
    exact CUI_acquireStatusLine_offset_eq st.gMaxStatusLines _ fi hle

/-- Witness for C8 at the concrete two-client `[2, 3]` state. -/
theorem claim_C8_statusLine_offset_witness :
    ((((CUI_acquireStatusLine twoClientState 20 "L").2.2).gStatusLineResources.getD
        (CUI_getClientIndex twoClientState.gClientHandles 20).toNat []).getD 0
        zeroStatusLine).lineOffset
      = (twoClientState.gMaxStatusLines.take
          (CUI_getClientIndex twoClientState.gClientHandles 20).toNat).sum
        + (CUI_getClientIndex twoClientState.gClientHandles 20).toNat + 0 :=
  claim_C8_statusLine_offset.1 twoClientState 20 "L" 0
    (CUI_acquireStatusLine twoClientState 20 "L").2.2 rfl
    (by decide) (by decide) (by decide)

theorem getD_replicate {α : Type} (n i : Nat) (x d : α) :
    (List.replicate n x).getD i d = if i < n then x else d := by
  rw [List.getD_eq_getElem?_getD, List.getElem?_replicate]
  by_cases h : i < n
  · simp [h]
  · simp [h]

theorem btnStep_owner (g : GlobalFlags) (clients : List Nat)
    (st : List CUI_btnResource_t) (op : BtnOp) (idx : Nat) :
    btnOwner (btnStep g clients st op) idx = btnOwner st idx ∨
    btnOwner (btnStep g clients st op) idx = 0 ∨
    ∃ h cb, op = BtnOp.acquire h idx cb ∧
      btnOwner (btnStep g clients st op) idx = h := by
  cases op with
  | acquire h i cb =>
    by_cases hchk : CUI_publicBtnsAPIChecks g clients h ≠ CUI_SUCCESS
    · have hstep : btnStep g clients st (BtnOp.acquire h i cb) = st := by
        simp only [btnStep, CUI_btnResourceRequest]
        rw [if_pos hchk]
      rw [hstep]; left; rfl
    · by_cases hown : (st.getD i ⟨0, none⟩).clientHash ≠ 0
      · have hstep : btnStep g clients st (BtnOp.acquire h i cb) = st := by
          simp only [btnStep, CUI_btnResourceRequest]
          rw [if_neg hchk]
          show (CUI_acquireBtn st h i cb).2 = st
          simp only [CUI_acquireBtn]
          rw [if_pos hown]
        rw [hstep]; left; rfl
      · have hstep : btnStep g clients st (BtnOp.acquire h i cb)
            = st.set i ⟨h, cb⟩ := by
          simp only [btnStep, CUI_btnResourceRequest]
          rw [if_neg hchk]
          show (CUI_acquireBtn st h i cb).2 = _
          simp only [CUI_acquireBtn]
          rw [if_neg hown]
        rw [hstep]
        by_cases hlen : i < st.length
        · by_cases hidx : idx = i
          · subst hidx
            right; right
            refine ⟨h, cb, rfl, ?_⟩
            unfold btnOwner
            rw [getD_set_self _ _ _ _ hlen]
          · left
            unfold btnOwner
            rw [getD_set_ne _ _ _ _ _ (fun hh => hidx hh.symm)]
        · left
          rw [List.set_eq_of_length_le (by omega)]
  | release h i =>
    by_cases hchk : CUI_publicBtnsAPIChecks g clients h ≠ CUI_SUCCESS
    · have hstep : btnStep g clients st (BtnOp.release h i) = st := by
        simp only [btnStep, CUI_btnResourceRelease]
        rw [if_pos hchk]
      rw [hstep]; left; rfl
    · by_cases hown : h ≠ (st.getD i ⟨0, none⟩).clientHash
      · have hstep : btnStep g clients st (BtnOp.release h i) = st := by
          simp only [btnStep, CUI_btnResourceRelease]
          rw [if_neg hchk, if_pos hown]
        rw [hstep]; left; rfl
      · have hstep : btnStep g clients st (BtnOp.release h i)
            = st.set i ⟨0, none⟩ := by
          simp only [btnStep, CUI_btnResourceRelease]
          rw [if_neg hchk, if_neg hown]
        rw [hstep]
        by_cases hlen : i < st.length
        · by_cases hidx : idx = i
          · subst hidx
            right; left
            unfold btnOwner
            rw [getD_set_self _ _ _ _ hlen]
          · left
            unfold btnOwner
            rw [getD_set_ne _ _ _ _ _ (fun hh => hidx hh.symm)]
        · left
          rw [List.set_eq_of_length_le (by omega)]

theorem btnRun_owner (g : GlobalFlags) (clients : List Nat) :
    ∀ (ops : List BtnOp) (st : List CUI_btnResource_t) (idx : Nat),
      btnOwner (btnRun g clients st ops) idx = btnOwner st idx ∨
      btnOwner (btnRun g clients st ops) idx = 0 ∨
      ∃ h cb, BtnOp.acquire h idx cb ∈ ops ∧
        btnOwner (btnRun g clients st ops) idx = h := by
  intro ops
  induction ops with
  | nil => intro st idx; left; rfl
  | cons op ops ih =>
    intro st idx
    have hrw : btnRun g clients st (op :: ops)
        = btnRun g clients (btnStep g clients st op) ops := by
      simp [btnRun]
    rw [hrw]
    rcases ih (btnStep g clients st op) idx with h1 | h1 | ⟨h', cb', hmem, hch⟩
    · rcases btnStep_owner g clients st op idx with h2 | h2 | ⟨h', cb, hop, hval⟩
      · left; rw [h1, h2]
      · right; left; rw [h1, h2]
      · right; right
        refine ⟨h', cb, ?_, by rw [h1, hval]⟩
        rw [← hop]
        exact List.mem_cons_self op ops
    · right; left; exact h1
    · right; right; exact ⟨h', cb', List.mem_cons_of_mem op hmem, hch⟩

theorem ledStep_owner (g : GlobalFlags) (clients : List Nat)
    (st : List CUI_ledResource_t) (op : LedOp) (idx : Nat) :
    ledOwner (ledStep g clients st op) idx = ledOwner st idx ∨
    ledOwner (ledStep g clients st op) idx = 0 ∨
    ∃ h, op = LedOp.acquire h idx ∧
      ledOwner (ledStep g clients st op) idx = h := by
  cases op with
  | acquire h i =>
    by_cases hchk : CUI_publicLedsAPIChecks g clients h ≠ CUI_SUCCESS
    · have hstep : ledStep g clients st (LedOp.acquire h i) = st := by
        simp only [ledStep, CUI_ledResourceRequest]
        rw [if_pos hchk]
      rw [hstep]; left; rfl
    · by_cases hown : (st.getD i ⟨0⟩).clientHash ≠ 0
      · have hstep : ledStep g clients st (LedOp.acquire h i) = st := by
          simp only [ledStep, CUI_ledResourceRequest]
          rw [if_neg hchk]
          show (CUI_acquireLed st h i).2 = st
          simp only [CUI_acquireLed]
          rw [if_pos hown]
        rw [hstep]; left; rfl
      · have hstep : ledStep g clients st (LedOp.acquire h i)
            = st.set i ⟨h⟩ := by
          simp only [ledStep, CUI_ledResourceRequest]
          rw [if_neg hchk]
          show (CUI_acquireLed st h i).2 = _
          simp only [CUI_acquireLed]
          rw [if_neg hown]
        rw [hstep]
        by_cases hlen : i < st.length
        · by_cases hidx : idx = i
          · subst hidx
            right; right
            refine ⟨h, rfl, ?_⟩
            unfold ledOwner
            rw [getD_set_self _ _ _ _ hlen]
          · left
            unfold ledOwner
            rw [getD_set_ne _ _ _ _ _ (fun hh => hidx hh.symm)]
        · left
          rw [List.set_eq_of_length_le (by omega)]
  | release h i =>
    by_cases hchk : CUI_publicLedsAPIChecks g clients h ≠ CUI_SUCCESS
    · have hstep : ledStep g clients st (LedOp.release h i) = st := by
        simp only [ledStep, CUI_ledResourceRelease]
        rw [if_pos hchk]
      rw [hstep]; left; rfl
    · by_cases hown : h ≠ (st.getD i ⟨0⟩).clientHash
      · have hstep : ledStep g clients st (LedOp.release h i) = st := by
          simp only [ledStep, CUI_ledResourceRelease]
          rw [if_neg hchk, if_pos hown]
        rw [hstep]; left; rfl
      · have hstep : ledStep g clients st (LedOp.release h i)
            = st.set i ⟨0⟩ := by
          simp only [ledStep, CUI_ledResourceRelease]
          rw [if_neg hchk, if_neg hown]
        rw [hstep]
        by_cases hlen : i < st.length
        · by_cases hidx : idx = i
          · subst hidx
            right; left
            unfold ledOwner
            rw [getD_set_self _ _ _ _ hlen]
          · left
            unfold ledOwner
            rw [getD_set_ne _ _ _ _ _ (fun hh => hidx hh.symm)]
        · left
          rw [List.set_eq_of_length_le (by omega)]

theorem ledRun_owner (g : GlobalFlags) (clients : List Nat) :
    ∀ (ops : List LedOp) (st : List CUI_ledResource_t) (idx : Nat),
      ledOwner (ledRun g clients st ops) idx = ledOwner st idx ∨
      ledOwner (ledRun g clients st ops) idx = 0 ∨
      ∃ h, LedOp.acquire h idx ∈ ops ∧
        ledOwner (ledRun g clients st ops) idx = h := by
  intro ops
  induction ops with
  | nil => intro st idx; left; rfl
  | cons op ops ih =>
    intro st idx
    have hrw : ledRun g clients st (op :: ops)
        = ledRun g clients (ledStep g clients st op) ops := by
      simp [ledRun]
    rw [hrw]
    rcases ih (ledStep g clients st op) idx with h1 | h1 | ⟨h', hmem, hch⟩
    · rcases ledStep_owner g clients st op idx with h2 | h2 | ⟨h', hop, hval⟩
      · left; rw [h1, h2]
      · right; left; rw [h1, h2]
      · right; right
        refine ⟨h', ?_, by rw [h1, hval]⟩
        rw [← hop]
        exact List.mem_cons_self op ops
    · right; left; exact h1
    · right; right; exact ⟨h', List.mem_cons_of_mem op hmem, hch⟩

/-- **C1.**  For every sequence of public button/LED acquire and
release operations starting from the all-free resource tables, the
stored owner of each slot is always either the free sentinel 0 or the
hash of a client that acquired that slot within the sequence; and an
acquire issued by any valid client B on a slot whose stored owner A is
nonzero returns `CUI_FAILURE` and leaves the table — hence A's
ownership — unchanged. -/
theorem claim_C1_resource_ownership :
    (∀ (g : GlobalFlags) (clients : List Nat) (L : Nat) (ops : List BtnOp)
       (idx : Nat),
      btnOwner (btnRun g clients (List.replicate L ⟨0, none⟩) ops) idx = 0 ∨
      ∃ h cb, BtnOp.acquire h idx cb ∈ ops ∧
        btnOwner (btnRun g clients (List.replicate L ⟨0, none⟩) ops) idx = h) ∧
    (∀ (g : GlobalFlags) (clients : List Nat) (st : List CUI_btnResource_t)
       (B idx : Nat) (cb : Option Nat),
      g.gManageBtns = true → g.gModuleInitialized = true → B ≠ 0 →
      B ∈ clients → btnOwner st idx ≠ 0 →
      CUI_btnResourceRequest g clients st B (some (idx, cb))
        = (CUI_retVal_t.CUI_FAILURE, st)) ∧
    (∀ (g : GlobalFlags) (clients : List Nat) (L : Nat) (ops : List LedOp)
       (idx : Nat),
      ledOwner (ledRun g clients (List.replicate L ⟨0⟩) ops) idx = 0 ∨
      ∃ h, LedOp.acquire h idx ∈ ops ∧
        ledOwner (ledRun g clients (List.replicate L ⟨0⟩) ops) idx = h) ∧
    (∀ (g : GlobalFlags) (clients : List Nat) (st : List CUI_ledResource_t)
       (B idx : Nat),
      g.gManageLeds = true → g.gModuleInitialized = true → B ≠ 0 →
      B ∈ clients → ledOwner st idx ≠ 0 →
      CUI_ledResourceRequest g clients st B (some idx)
        = (CUI_retVal_t.CUI_FAILURE, st)) := by
  refine ⟨?_, ?_, ?_, ?_⟩
  · intro g clients L ops idx
    have h0 : btnOwner (List.replicate L (⟨0, none⟩ : CUI_btnResource_t)) idx = 0 := by
      unfold btnOwner
      rw [getD_replicate]
      by_cases h : idx < L <;> simp [h]
    rcases btnRun_owner g clients ops (List.replicate L ⟨0, none⟩) idx with
      h1 | h1 | ⟨h', cb', hmem, hch⟩
    · left; rw [h1, h0]
    · left; exact h1
    · right; exact ⟨h', cb', hmem, hch⟩
  · intro g clients st B idx cb hb hi h0 hmem hown
    unfold CUI_btnResourceRequest
    rw [CUI_publicBtnsAPIChecks_success g clients B hb hi h0 hmem]
    rw [if_neg (by simp)]
    show CUI_acquireBtn st B idx cb = _
    simp only [CUI_acquireBtn]
    unfold btnOwner at hown
    rw [if_pos hown]
  · intro g clients L ops idx
    have h0 : ledOwner (List.replicate L (⟨0⟩ : CUI_ledResource_t)) idx = 0 := by
      unfold ledOwner
      rw [getD_replicate]
      by_cases h : idx < L <;> simp [h]
    rcases ledRun_owner g clients ops (List.replicate L ⟨0⟩) idx with
      h1 | h1 | ⟨h', hmem, hch⟩
    · left; rw [h1, h0]
    · left; exact h1
    · right; exact ⟨h', hmem, hch⟩
  · intro g clients st B idx hl hi h0 hmem hown
    unfold CUI_ledResourceRequest
    rw [CUI_publicLedsAPIChecks_success g clients B hl hi h0 hmem]
    rw [if_neg (by simp)]
    show CUI_acquireLed st B idx = _
    simp only [CUI_acquireLed]
    unfold ledOwner at hown
    rw [if_pos hown]

/-- Witness for C1: a concrete two-op button history, and concrete
busy acquires on a button slot owned by hash 9 and a LED slot owned by
hash 9, both issued by the open client with hash 6. -/
theorem claim_C1_resource_ownership_witness :
    (btnOwner (btnRun ⟨true, true, true, true⟩ [5, 6, 0, 0]
        (List.replicate 2 ⟨0, none⟩) [BtnOp.acquire 5 0 none]) 0 = 0 ∨
      ∃ h cb, BtnOp.acquire h 0 cb ∈ [BtnOp.acquire 5 0 none] ∧
        btnOwner (btnRun ⟨true, true, true, true⟩ [5, 6, 0, 0]
          (List.replicate 2 ⟨0, none⟩) [BtnOp.acquire 5 0 none]) 0 = h) ∧
    CUI_btnResourceRequest ⟨true, true, true, true⟩ [5, 6, 0, 0] [⟨9, none⟩] 6
        (some (0, none)) = (CUI_retVal_t.CUI_FAILURE, [⟨9, none⟩]) ∧
    CUI_ledResourceRequest ⟨true, true, true, true⟩ [5, 6, 0, 0] [⟨9⟩] 6
        (some 0) = (CUI_retVal_t.CUI_FAILURE, [⟨9⟩]) :=
  ⟨claim_C1_resource_ownership.1 ⟨true, true, true, true⟩ [5, 6, 0, 0] 2
      [BtnOp.acquire 5 0 none] 0,
   claim_C1_resource_ownership.2.1 ⟨true, true, true, true⟩ [5, 6, 0, 0]
      [⟨9, none⟩] 6 0 none rfl rfl (by decide) (by decide) (by decide),
   claim_C1_resource_ownership.2.2.2 ⟨true, true, true, true⟩ [5, 6, 0, 0]
      [⟨9⟩] 6 0 rfl rfl (by decide) (by decide) (by decide)⟩

/-- **C4 (amended).**  On the input-processing path, the escape
sequence `ESC [ D` — the left-arrow sequence `CUI_ESC_LEFT` (cui.c line
76) — yields exactly the same navigation transition as any other LEFT
input (both reduce to dispatching `CUI_INPUT_LEFT`); and any
full-length escape window that matches none of the four arrow
sequences nor the bare-escape pattern is dropped, leaving the whole
navigation state (current menu and current item index) unchanged.  The
original claim named `ESC [ A`, which is the *up*-arrow sequence
`CUI_ESC_UP` (cui.c line 73) and decodes to the no-op UP command — see
the counterexample. -/
theorem claim_C4_escape_decode :
    (∀ st : MenuState,
      CUI_processMenuUpdate st escLeftWindow
        = CUI_applyInput st CUI_INPUT_LEFT) ∧
    (∀ st : MenuState,
      CUI_processMenuUpdate st [CUI_INPUT_LEFT, 0, 0, 0, 0]
        = CUI_applyInput st CUI_INPUT_LEFT) ∧
    (∀ (st : MenuState) (buf : List Nat),
      buf.getD 0 0 = CUI_INPUT_ESC →
      buf.take 4 ≠ [0x1B, 0x5B, 0x41, 0] →
      buf.take 4 ≠ [0x1B, 0x5B, 0x42, 0] →
      buf.take 4 ≠ [0x1B, 0x5B, 0x43, 0] →
      buf.take 4 ≠ [0x1B, 0x5B, 0x44, 0] →
      buf.take 5 ≠ [0x1B, 0, 0, 0, 0] →
      CUI_processMenuUpdate st buf = st) := by
  refine ⟨?_, ?_, ?_⟩
  · intro st
    have hdec : CUI_decodeEscInput escLeftWindow = some CUI_INPUT_LEFT := by decide
    have hfold : CUI_foldUppercase CUI_INPUT_LEFT = CUI_INPUT_LEFT := by decide
    simp only [CUI_processMenuUpdate, hdec, hfold]
  · intro st
    have hdec : CUI_decodeEscInput [CUI_INPUT_LEFT, 0, 0, 0, 0]
        = some CUI_INPUT_LEFT := by decide
    have hfold : CUI_foldUppercase CUI_INPUT_LEFT = CUI_INPUT_LEFT := by decide
    simp only [CUI_processMenuUpdate, hdec, hfold]
  · intro st buf h0 hA hB hC hD hE
    have hdec : CUI_decodeEscInput buf = none := by
      simp only [CUI_decodeEscInput]
      rw [if_pos h0, if_neg hA, if_neg hB, if_neg hC, if_neg hD, if_pos hE]
    simp only [CUI_processMenuUpdate, hdec]

/-- Witness for C4 at a concrete two-item menu state and the concrete
malformed window `1B 41 00 00 00` (ESC followed by a stray byte). -/
theorem claim_C4_escape_decode_witness :
    CUI_processMenuUpdate navWitnessState escLeftWindow
      = CUI_applyInput navWitnessState CUI_INPUT_LEFT ∧
    CUI_processMenuUpdate navWitnessState [0x1B, 0x41, 0, 0, 0]
      = navWitnessState :=
  ⟨claim_C4_escape_decode.1 navWitnessState,
   claim_C4_escape_decode.2.2 navWitnessState [0x1B, 0x41, 0, 0, 0]
     (by decide) (by decide) (by decide) (by decide) (by decide) (by decide)⟩

/-- **C4 counterexample.**  On a concrete two-item menu with the
cursor at index 0, processing the input window `ESC [ A`
(`escUpWindow`) leaves the cursor at 0 — it decodes to `CUI_INPUT_UP`,
whose `case` in `CUI_processMenuUpdate` is an empty `break` — while a
LEFT input moves the cursor to 1 (wraparound).  `ESC [ A` therefore
does *not* yield the same navigation transition as a LEFT input. -/
theorem claim_C4_counterexample :
    (CUI_processMenuUpdate navWitnessState escUpWindow).gCurrMenuItemEntry = 0 ∧
    (CUI_processMenuUpdate navWitnessState
        [CUI_INPUT_LEFT, 0, 0, 0, 0]).gCurrMenuItemEntry = 1 ∧
    (0 : Int) ≠ 1 := by
  refine ⟨rfl, rfl, by decide⟩

theorem handleMenuIntercept_noop (st : MenuState) (input : Nat) (m : Nat)
    (hc : st.gpCurrMenu = some m)
    (hsafe : (currItem st).interceptable = false ∨
      ((currItem st).interceptActive = false ∧ input ≠ CUI_INPUT_EXECUTE)) :
    CUI_handleMenuIntercept st input = (false, st) := by
  unfold currItem at hsafe
  simp only [hc, List.getD_eq_getElem?_getD] at hsafe
  simp only [CUI_handleMenuIntercept, hc]
  rcases hsafe with h1 | ⟨h2, h3⟩
  · rw [if_neg (by simp [h1])]
  · by_cases hi : ((st.store m).menuItems[st.gCurrMenuItemEntry.toNat]?.getD
        defaultMenuItem).interceptable
    · rw [if_pos (by simp [hi]), if_neg (by simp [h2]), if_neg h3]
    · rw [if_neg (by simp [hi])]

theorem applyInput_execute_submenu (st : MenuState) (m sub : Nat)
    (hc : st.gpCurrMenu = some m)
    (hni : (currItem st).interceptable = false)
    (hdesc : (currItem st).pDesc = none)
    (hitem : (currItem st).item = ItemUnion.pSubMenu sub) :
    CUI_applyInput st CUI_INPUT_EXECUTE
      = { st with gpCurrMenu := some sub,
                  gPrevMenuItemEntry := st.gCurrMenuItemEntry,
                  gCurrMenuItemEntry := 0 } := by
  have hint1 : CUI_handleMenuIntercept st CUI_INPUT_EXECUTE = (false, st) :=
    handleMenuIntercept_noop st _ m hc (Or.inl hni)
  unfold currItem at hdesc hitem
  simp only [hc, List.getD_eq_getElem?_getD] at hdesc hitem
  simp only [CUI_applyInput, hint1]
  rw [if_neg Bool.false_ne_true]
  rw [if_neg (by decide), if_neg (by decide), if_neg (by decide),
    if_neg (by decide), if_pos trivial]
  simp only [CUI_menuActionExecute, hc, List.getD_eq_getElem?_getD, hdesc, hitem]

theorem applyInput_back_pop (st1 : MenuState) (sub m : Nat)
    (hc : st1.gpCurrMenu = some sub)
    (hup : (st1.store sub).pUpper = some m)
    (hsafe : (currItem st1).interceptable = false ∨
      (currItem st1).interceptActive = false) :
    CUI_applyInput st1 CUI_INPUT_BACK
      = { st1 with gpCurrMenu := some m,
                   gCurrMenuItemEntry := st1.gPrevMenuItemEntry } := by
  have hint : CUI_handleMenuIntercept st1 CUI_INPUT_BACK = (false, st1) := by
    refine handleMenuIntercept_noop st1 _ sub hc ?_
    rcases hsafe with h1 | h1
    · exact Or.inl h1
    · exact Or.inr ⟨h1, by decide⟩
  simp only [CUI_applyInput, hint]
  rw [if_neg Bool.false_ne_true]
  rw [if_neg (by decide), if_neg (by decide), if_neg (by decide),
    if_neg (by decide), if_neg (by decide), if_pos trivial]
  simp only [hc, hup]

/-- **C6.**  For every navigation state whose current item is a
(non-intercepting) sub-menu reference whose upper pointer names the
current menu, applying EXECUTE (push into the sub-menu) immediately
followed by BACK restores exactly the prior (current menu, current item
index) pair.  The side conditions are the well-formedness the menu data
model guarantees: a sub-menu item is not interceptable, and the
sub-menu's first item is not already in an active intercept session. -/
theorem claim_C6_execute_then_back (st : MenuState) (m sub : Nat)
    (hc : st.gpCurrMenu = some m)
    (hni : (currItem st).interceptable = false)
    (hdesc : (currItem st).pDesc = none)
    (hitem : (currItem st).item = ItemUnion.pSubMenu sub)
    (hup : (st.store sub).pUpper = some m)
    (hsafe : ((st.store sub).menuItems.getD 0 defaultMenuItem).interceptable = false ∨
      ((st.store sub).menuItems.getD 0 defaultMenuItem).interceptActive = false) :
    (CUI_applyInput (CUI_applyInput st CUI_INPUT_EXECUTE) CUI_INPUT_BACK).gpCurrMenu
        = some m ∧
    (CUI_applyInput (CUI_applyInput st CUI_INPUT_EXECUTE) CUI_INPUT_BACK).gCurrMenuItemEntry
        = st.gCurrMenuItemEntry := by
  rw [applyInput_execute_submenu st m sub hc hni hdesc hitem]
  rw [applyInput_back_pop
    { st with gpCurrMenu := some sub, gPrevMenuItemEntry := st.gCurrMenuItemEntry, gCurrMenuItemEntry := 0 }
    sub m rfl hup hsafe]
  exact ⟨rfl, rfl⟩

/-- A concrete sub-menu (two leaf items, upper pointer to menu 1). -/
def subWitnessMenu : CUI_menu_t :=
  ⟨none, "S", 2, some 1,
    [⟨false, false, some "s0", .pFnAction (.clientAction 0)⟩,
     ⟨false, false, some "s1", .pFnAction (.clientAction 0)⟩]⟩

/-- A concrete root menu whose first item refers to `subWitnessMenu`
(stored at identifier 3). -/
def execWitnessMenu : CUI_menu_t :=
  ⟨some 1, "E", 2, none,
    [⟨false, false, none, .pSubMenu 3⟩,
     ⟨false, false, some "e1", .pFnAction (.clientAction 0)⟩]⟩

/-- A concrete navigation state with the cursor on the sub-menu item. -/
def execWitnessState : MenuState :=
  { store := fun id => if id = 1 then execWitnessMenu
      else if id = 3 then subWitnessMenu else defaultMenu,
    gMenuResources := [(7, some 1), (0, none), (0, none), (0, none)],
    gpMainMenu := some 1, gpCurrMenu := some 1,
    gCurrMenuItemEntry := 0, gPrevMenuItemEntry := 1 }

/-- Witness for C6 at the concrete state on the sub-menu item. -/
theorem claim_C6_execute_then_back_witness :
    (CUI_applyInput (CUI_applyInput execWitnessState CUI_INPUT_EXECUTE)
        CUI_INPUT_BACK).gpCurrMenu = some 1 ∧
    (CUI_applyInput (CUI_applyInput execWitnessState CUI_INPUT_EXECUTE)
        CUI_INPUT_BACK).gCurrMenuItemEntry
      = execWitnessState.gCurrMenuItemEntry :=
  claim_C6_execute_then_back execWitnessState 1 3 rfl rfl rfl rfl rfl
    (Or.inl rfl)


/-!
## Claim C2: multi-menu composition and the root-menu invariant
-/


/-- Well-formedness of a `gMenuResources` slot: either completely free
or holding a nonzero client hash and a client menu pointer (never the
multi-menu itself). -/
def wfSlot (r : Nat × Option Nat) : Prop :=
  r = (0, none) ∨ (r.1 ≠ 0 ∧ ∃ m, m ≠ multiMenuId ∧ r.2 = some m)

/-- The reachability invariant of the menu registry: the resource
table keeps its capacity, slots are well formed, and the root pointer
agrees with the registration count — the multi-menu is the root with
`count + 1` items when at least two menus are registered, a client
menu is the root when exactly one is, and there is no root when none
is. -/
def MenuInv (st : MenuState) : Prop :=
  st.gMenuResources.length = MAX_REGISTERED_MENUS ∧
  (∀ r ∈ st.gMenuResources, wfSlot r) ∧
  (2 ≤ menuRegCount st →
    st.gpMainMenu = some multiMenuId ∧
    (st.store multiMenuId).numItems = menuRegCount st + 1) ∧
  (menuRegCount st = 1 → ∃ m, m ≠ multiMenuId ∧ st.gpMainMenu = some m) ∧
  (menuRegCount st = 0 → st.gpMainMenu = none)

theorem menuSlotFree_eq_pair {r : Nat × Option Nat}
    (h : menuSlotFree r = true) : r = (0, none) := by
  unfold menuSlotFree at h
  obtain ⟨h1, h2⟩ := Bool.and_eq_true_iff.mp h
  have : r.1 = 0 := by simpa using h1
  have h2' : r.2 = none := by simpa [Option.isNone_iff_eq_none] using h2
  cases r
  simp_all

theorem occupiedSlot_false_of_free {r : Nat × Option Nat}
    (h : menuSlotFree r = true) : occupiedSlot r = false := by
  rw [menuSlotFree_eq_pair h]
  rfl

theorem wfSlot_of_occupied {r : Nat × Option Nat} (hwf : wfSlot r)
    (ho : occupiedSlot r = true) :
    r.1 ≠ 0 ∧ ∃ m, m ≠ multiMenuId ∧ r.2 = some m := by
  rcases hwf with h1 | h1
  · rw [h1] at ho
    simp [occupiedSlot] at ho
  · exact h1

theorem countP_negFree_eq_occupied (l : List (Nat × Option Nat))
    (hwf : ∀ r ∈ l, wfSlot r) :
    l.countP (fun r => !menuSlotFree r) = l.countP occupiedSlot := by
  induction l with
  | nil => rfl
  | cons a t ih =>
    rw [List.countP_cons, List.countP_cons,
      ih (fun r hr => hwf r (List.mem_cons_of_mem a hr))]
    rcases hwf a (List.mem_cons_self a t) with h1 | ⟨h1, mm, hmm, h2⟩
    · subst h1
      rfl
    · have hfree : menuSlotFree a = false := by
        unfold menuSlotFree
        rcases a with ⟨a1, a2⟩
        simp only at h1 h2
        subst h2
        simp [h1]
      have hocc : occupiedSlot a = true := by
        unfold occupiedSlot
        rcases a with ⟨a1, a2⟩
        simp only at h1 h2
        subst h2
        simp [h1]
      rw [hfree, hocc]
      simp

theorem count_le_one_of_unique {α : Type} (d : α) (p : α → Bool) :
    ∀ (l : List α) (k : Nat),
      (∀ j, j < l.length → p (l.getD j d) = true → j = k) →
      l.countP p ≤ 1 := by
  intro l
  induction l with
  | nil => intro k _; simp
  | cons a t ih =>
    intro k hu
    rw [List.countP_cons]
    by_cases hp : p a
    · have hk : k = 0 := (hu 0 (by simp) (by simpa using hp)).symm
      have ht : t.countP p = 0 := by
        rw [List.countP_eq_zero]
        intro x hx hpx
        obtain ⟨j, hj, hjx⟩ := List.getElem_of_mem hx
        have : j + 1 = k := hu (j + 1) (by simpa using Nat.succ_lt_succ hj)
          (by rw [List.getD_cons_succ, List.getD_eq_getElem t d hj, hjx]; exact hpx)
        omega
      rw [ht]
      simp [hp]
    · have hpa : (if p a then 1 else 0) = 0 := by simp [hp]
      rw [hpa, Nat.add_zero]
      cases k with
      | zero =>
        have ht : t.countP p = 0 := by
          rw [List.countP_eq_zero]
          intro x hx hpx
          obtain ⟨j, hj, hjx⟩ := List.getElem_of_mem hx
          have : j + 1 = 0 := hu (j + 1) (by simpa using Nat.succ_lt_succ hj)
            (by rw [List.getD_cons_succ, List.getD_eq_getElem t d hj, hjx]; exact hpx)
          omega
        omega
      | succ k' =>
        refine ih k' (fun j hj hpj => ?_)
        have : j + 1 = k' + 1 := hu (j + 1) (by simpa using Nat.succ_lt_succ hj)
          (by rw [List.getD_cons_succ]; exact hpj)
        omega


theorem scenario_step2 (A B : CUI_menu_t) (hA hB : Nat)
    (hAne : hA ≠ 0)
    (hBu : B.uartUpdateFn.isNone = false) :
    CUI_registerMenu (scenarioState1 A B hA) hB 2
      = (CUI_SUCCESS, scenarioState2 A B hA hB) := by
  have hbeqA : (hA == 0) = false := by simp [hAne]
  unfold CUI_registerMenu
  rw [if_neg (by rw [show ((scenarioState1 A B hA).store 2).uartUpdateFn = B.uartUpdateFn from rfl, hBu]; exact Bool.false_ne_true)]
  simp only [scenarioState1, scenarioInitState, initialMenuState, findFirstIdx,
    menuSlotFree, hbeqA, Bool.and_false, Bool.false_and, Option.isNone_some,
    Option.isNone_none, Bool.and_true, Bool.and_self, List.countP_cons,
    List.countP_nil, Bool.not_false, Bool.not_true, if_false, if_true,
    MAX_REGISTERED_MENUS]
  simp only [Option.map_some', Option.map_none', Nat.reduceBEq, Nat.reduceAdd,
    Nat.reduceEqDiff, Bool.not_false, Bool.not_true, if_true, if_false,
    Bool.false_eq_true, Bool.true_eq_false, ite_true, ite_false, gt_iff_lt,
    Nat.lt_irrefl, Nat.zero_lt_one, Nat.reduceGT, reduceIte]
  rw [Prod.mk.injEq]
  refine ⟨rfl, ?_⟩
  simp only [scenarioState2]
  rw [MenuState.mk.injEq]
  refine ⟨?_, ?_, ?_, ?_, ?_, ?_⟩
  · funext id
    by_cases h1 : id = 1
    · subst h1
      simp [updMenu, setItem, multiMenuId]
    · by_cases h2 : id = 2
      · subst h2
        simp [updMenu, setItem, scenarioState2, multiMenuId]
      · by_cases h0 : id = 0
        · subst h0
          simp [updMenu, setItem, scenarioState2, multiMenuId,
            cuiMultiMenu_init, MAX_REGISTERED_MENUS, List.replicate]
        · simp [updMenu, setItem, scenarioState2, multiMenuId, h0, h1, h2]
  · simp
  · rfl
  · rfl
  · simp [updMenu, setItem, multiMenuId]
  · rfl


theorem scenario_step3 (A B : CUI_menu_t) (hA hB : Nat)
    (hAne : hA ≠ 0) (hBne : hB ≠ 0)
    (hBu : B.uartUpdateFn.isNone = false) :
    CUI_deRegisterMenu (scenarioState2 A B hA hB) hB 2
      = (CUI_SUCCESS, scenarioState3 A B hA hB) := by
  have hbeqA : (hA == 0) = false := by simp [hAne]
  have hbeqB : (hB == 0) = false := by simp [hBne]
  have h12 : ((some 1 : Option Nat) == some 2) = false := by decide
  have h22 : ((some 2 : Option Nat) == some 2) = true := by decide
  have hBB : (hB == hB) = true := by simp
  unfold CUI_deRegisterMenu
  rw [if_neg (by rw [show ((scenarioState2 A B hA hB).store 2).uartUpdateFn = B.uartUpdateFn from rfl, hBu]; exact Bool.false_ne_true)]
  simp only [scenarioState2, findFirstIdx, occupiedSlot, menuSlotFree, hbeqA, hbeqB,
    bne, Bool.and_false, Bool.false_and, Option.isNone_some, Option.isNone_none,
    Option.isSome_some, Option.isSome_none, Bool.and_true, Bool.true_and,
    Bool.and_self, List.countP_cons, List.countP_nil, Bool.not_false, Bool.not_true,
    if_false, if_true, MAX_REGISTERED_MENUS, beq_self_eq_true,
    Option.map_some', Option.map_none', Nat.reduceBEq, Nat.reduceAdd,
    Nat.reduceEqDiff, Bool.false_eq_true, Bool.true_eq_false, ite_true, ite_false,
    gt_iff_lt, Nat.lt_irrefl, Nat.zero_lt_one, Nat.reduceGT, reduceIte, List.length_cons,
    List.length_nil, List.range_succ, List.range_zero, List.find?_cons,
    List.find?_nil, List.getD_cons_zero, List.getD_cons_succ, updMenu, multiMenuId,
    h12, h22, hBB]
  simp only [Nat.reduceLT, Nat.reduceSub]
  rw [Prod.mk.injEq]
  refine ⟨rfl, ?_⟩
  simp only [scenarioState3]
  rw [MenuState.mk.injEq]
  refine ⟨?_, ?_, ?_, ?_, ?_, ?_⟩
  · funext id
    by_cases h1 : id = 1
    · subst h1
      simp [updMenu, setItem, multiMenuId, List.set_set, hbeqA]
    · by_cases h2 : id = 2
      · subst h2
        simp [updMenu, setItem, multiMenuId, hbeqA]
      · by_cases h0 : id = 0
        · subst h0
          simp [updMenu, setItem, multiMenuId, hbeqA]
        · simp [updMenu, setItem, multiMenuId, h0, h1, h2, hbeqA]
  · simp
  · simp [hbeqA]
  · simp [hbeqA]
  · simp [updMenu, setItem, multiMenuId, hbeqA]
  · simp [hbeqA]


theorem updMenu_self (s : Nat → CUI_menu_t) (id : Nat) (f : CUI_menu_t → CUI_menu_t) :
    updMenu s id f id = f (s id) := by
  simp [updMenu]

theorem updMenu_ne (s : Nat → CUI_menu_t) (id : Nat) (f : CUI_menu_t → CUI_menu_t)
    (j : Nat) (hj : j ≠ id) : updMenu s id f j = s j := by
  simp [updMenu, hj]

theorem registerMenu_inv (st : MenuState) (h m : Nat) (hInv : MenuInv st)
    (hh : h ≠ 0) (hm : m ≠ multiMenuId) :
    MenuInv (CUI_registerMenu st h m).2 := by
  obtain ⟨hlen, hwf, hC, hD, hE⟩ := hInv
  simp only [menuRegCount] at hC hD hE
  have h0m : multiMenuId ≠ m := fun c => hm c.symm
  unfold CUI_registerMenu
  by_cases hu : ((st.store m).uartUpdateFn).isNone
  · rw [if_pos hu]
    exact ⟨hlen, hwf, hC, hD, hE⟩
  · rw [if_neg hu]
    cases hfi : findFirstIdx menuSlotFree st.gMenuResources with
    | none => exact ⟨hlen, hwf, hC, hD, hE⟩
    | some fi =>
      have hfi_lt : fi < st.gMenuResources.length :=
        findFirstIdx_some_lt _ _ _ hfi
      have hfi_free : menuSlotFree (st.gMenuResources.getD fi (0, none)) = true :=
        findFirstIdx_some_getD _ _ _ _ hfi
      have hcount' : (st.gMenuResources.set fi (h, some m)).countP occupiedSlot
          = st.gMenuResources.countP occupiedSlot + 1 := by
        rw [List.countP_set occupiedSlot _ fi _ hfi_lt]
        have h1 : occupiedSlot st.gMenuResources[fi] = false := by
          rw [← List.getD_eq_getElem st.gMenuResources (0, none) hfi_lt]
          exact occupiedSlot_false_of_free hfi_free
        have h2 : occupiedSlot (h, some m) = true := by simp [occupiedSlot, hh]
        rw [h1, h2]
        simp
      have hwf' : ∀ r ∈ st.gMenuResources.set fi (h, some m), wfSlot r := by
        intro r hr
        rcases List.mem_or_eq_of_mem_set hr with h1 | h1
        · exact hwf r h1
        · subst h1
          exact Or.inr ⟨hh, m, hm, rfl⟩
      have hlen' : (st.gMenuResources.set fi (h, some m)).length
          = MAX_REGISTERED_MENUS := by
        rw [List.length_set]; exact hlen
      have hnum : st.gMenuResources.countP (fun r => !menuSlotFree r)
          = st.gMenuResources.countP occupiedSlot :=
        countP_negFree_eq_occupied _ hwf
      simp only [hnum]
      rcases Nat.lt_or_ge (st.gMenuResources.countP occupiedSlot) 1 with hc | hc
      · -- count = 0: first registration, single root
        have hc0 : st.gMenuResources.countP occupiedSlot = 0 := by omega
        rw [hc0]
        rw [if_neg (by omega)]
        refine ⟨hlen', hwf', ?_, ?_, ?_⟩
        · intro hge
          simp only [menuRegCount] at hge
          rw [hcount', hc0] at hge
          omega
        · intro _
          exact ⟨m, hm, rfl⟩
        · intro h0
          simp only [menuRegCount] at h0
          rw [hcount', hc0] at h0
          omega
      · rw [if_pos (by omega)]
        rcases Nat.lt_or_ge (st.gMenuResources.countP occupiedSlot) 2 with hc2 | hc2
        · -- count = 1: promotion to the multi-menu
          have hc1 : st.gMenuResources.countP occupiedSlot = 1 := by omega
          obtain ⟨mm, hmm0, hmain⟩ := hD hc1
          rw [hc1, hmain]
          simp only [Nat.reduceEqDiff, reduceIte, if_true, if_false]
          refine ⟨hlen', hwf', ?_, ?_, ?_⟩
          · intro _
            refine ⟨rfl, ?_⟩
            simp only [menuRegCount]
            rw [hcount', hc1]
            simp [updMenu, setItem, h0m]
          · intro h1
            simp only [menuRegCount] at h1
            rw [hcount', hc1] at h1
            omega
          · intro h0
            simp only [menuRegCount] at h0
            rw [hcount', hc1] at h0
            omega
        · -- count >= 2: append to the existing multi-menu
          obtain ⟨hmain2, hni⟩ := hC hc2
          have hfalse : (List.countP occupiedSlot st.gMenuResources = 1) = False :=
            eq_false (by omega)
          simp only [hfalse, if_false]
          refine ⟨hlen', hwf', ?_, ?_, ?_⟩
          · intro _
            refine ⟨hmain2, ?_⟩
            simp only [menuRegCount]
            rw [hcount']
            simp [updMenu, setItem, h0m]
            omega
          · intro h1
            simp only [menuRegCount] at h1
            rw [hcount'] at h1
            omega
          · intro h0
            simp only [menuRegCount] at h0
            rw [hcount'] at h0
            omega


theorem deRegisterMenu_inv (st : MenuState) (h m : Nat) (hInv : MenuInv st)
    (hh : h ≠ 0) (_hm : m ≠ multiMenuId) :
    MenuInv (CUI_deRegisterMenu st h m).2 := by
  obtain ⟨hlen, hwf, hC, hD, hE⟩ := hInv
  simp only [menuRegCount] at hC hD hE
  unfold CUI_deRegisterMenu
  by_cases hu : ((st.store m).uartUpdateFn).isNone
  · rw [if_pos hu]
    exact ⟨hlen, hwf, hC, hD, hE⟩
  · rw [if_neg hu]
    cases hmi : findFirstIdx (fun r => r.1 == h && r.2 == some m)
        st.gMenuResources with
    | none =>
      simp only [hmi]
      exact ⟨hlen, hwf, hC, hD, hE⟩
    | some mi =>
      have hmi_lt : mi < st.gMenuResources.length :=
        findFirstIdx_some_lt _ _ _ hmi
      have hmi_pred := findFirstIdx_some_getD
        (fun r => r.1 == h && r.2 == some m) st.gMenuResources mi (0, none) hmi
      have hslot : st.gMenuResources.getD mi (0, none) = (h, some m) := by
        obtain ⟨p1, p2⟩ := Bool.and_eq_true_iff.mp hmi_pred
        have e1 : (st.gMenuResources.getD mi (0, none)).1 = h := by
          simpa using p1
        have e2 : (st.gMenuResources.getD mi (0, none)).2 = some m := by
          simpa using p2
        cases hg : st.gMenuResources.getD mi (0, none)
        rw [hg] at e1 e2
        simp_all
      have hocc_mi : occupiedSlot (st.gMenuResources.getD mi (0, none)) = true := by
        rw [hslot]
        simp [occupiedSlot, hh]
      have hcount' : (st.gMenuResources.set mi (0, none)).countP occupiedSlot
          = st.gMenuResources.countP occupiedSlot - 1 := by
        rw [List.countP_set occupiedSlot _ mi _ hmi_lt]
        have h1 : occupiedSlot st.gMenuResources[mi] = true := by
          rw [← List.getD_eq_getElem st.gMenuResources (0, none) hmi_lt]
          exact hocc_mi
        rw [h1]
        simp [occupiedSlot]
      have hcpos : 1 ≤ st.gMenuResources.countP occupiedSlot := by
        have h1 : occupiedSlot st.gMenuResources[mi] = true := by
          rw [← List.getD_eq_getElem st.gMenuResources (0, none) hmi_lt]
          exact hocc_mi
        have : 0 < st.gMenuResources.countP occupiedSlot :=
          List.countP_pos_iff.mpr ⟨_, List.getElem_mem hmi_lt, h1⟩
        omega
      have hwf' : ∀ r ∈ st.gMenuResources.set mi (0, none), wfSlot r := by
        intro r hr
        rcases List.mem_or_eq_of_mem_set hr with h1 | h1
        · exact hwf r h1
        · subst h1
          exact Or.inl rfl
      have hlen' : (st.gMenuResources.set mi (0, none)).length
          = MAX_REGISTERED_MENUS := by
        rw [List.length_set]
        exact hlen
      rcases Nat.lt_or_ge (st.gMenuResources.countP occupiedSlot) 2 with hc | hc
      · -- exactly one registered menu: the registry empties out
        have hc1 : st.gMenuResources.countP occupiedSlot = 1 := by omega
        have hgt : (st.gMenuResources.countP occupiedSlot > 1) = False := by
          simp only [gt_iff_lt, eq_iff_iff, iff_false, not_lt]
          omega
        simp only [hmi, hgt, if_false]
        refine ⟨hlen', hwf', ?_, ?_, ?_⟩
        · intro hge
          exfalso
          simp only [menuRegCount] at hge
          rw [hcount', hc1] at hge
          omega
        · intro h1
          exfalso
          simp only [menuRegCount] at h1
          rw [hcount', hc1] at h1
          omega
        · intro _
          rfl
      · have hgt : (st.gMenuResources.countP occupiedSlot > 1) = True := by
          simp only [gt_iff_lt, eq_iff_iff, iff_true]
          omega
        obtain ⟨hmain2, hni⟩ := hC hc
        rcases Nat.lt_or_ge (st.gMenuResources.countP occupiedSlot) 3 with hc3 | hc3
        · -- exactly two registered: collapse back to a single root
          have hc2 : st.gMenuResources.countP occupiedSlot = 2 := by omega
          have h3 : ((st.store multiMenuId).numItems = 3) = True := by
            rw [hni]
            simp only [eq_iff_iff, iff_true]
            omega
          cases hf : (List.range st.gMenuResources.length).find?
              (fun i => occupiedSlot (st.gMenuResources.getD i (0, none))
                && i != mi) with
          | none =>
            exfalso
            have hall := List.find?_eq_none.mp hf
            have huniq : ∀ j, j < st.gMenuResources.length →
                occupiedSlot (st.gMenuResources.getD j (0, none)) = true → j = mi := by
              intro j hj hoj
              have hnotp := hall j (List.mem_range.mpr hj)
              by_cases hjm : j = mi
              · exact hjm
              · exfalso
                apply hnotp
                rw [hoj]
                simp [hjm]
            have := count_le_one_of_unique (0, none) occupiedSlot
              st.gMenuResources mi huniq
            omega
          | some j =>
            have hj_lt : j < st.gMenuResources.length :=
              List.mem_range.mp (List.mem_of_find?_eq_some hf)
            have hj_pred := List.find?_some hf
            obtain ⟨hoj, _⟩ := Bool.and_eq_true_iff.mp hj_pred
            have hj_mem : st.gMenuResources.getD j (0, none) ∈ st.gMenuResources := by
              rw [List.getD_eq_getElem st.gMenuResources (0, none) hj_lt]
              exact List.getElem_mem hj_lt
            obtain ⟨hj1, mj, hmj, hj2⟩ :=
              wfSlot_of_occupied (hwf _ hj_mem) hoj
            simp only [hmi, hgt, h3, if_true, hf, Option.getD_some, hj2]
            refine ⟨hlen', hwf', ?_, ?_, ?_⟩
            · intro hge
              exfalso
              simp only [menuRegCount] at hge
              rw [hcount', hc2] at hge
              omega
            · intro _
              exact ⟨mj, hmj, rfl⟩
            · intro h0
              exfalso
              simp only [menuRegCount] at h0
              rw [hcount', hc2] at h0
              omega
        · -- three or more registered: splice the entry out of the multi-menu
          have h3 : ((st.store multiMenuId).numItems = 3) = False := by
            rw [hni]
            simp only [eq_iff_iff, iff_false]
            omega
          simp only [hmi, hgt, h3, if_true, if_false]
          refine ⟨hlen', hwf', ?_, ?_, ?_⟩
          · intro _
            refine ⟨hmain2, ?_⟩
            simp only [menuRegCount, updMenu_self]
            rw [hcount', hni]
            omega
          · intro h1
            exfalso
            simp only [menuRegCount] at h1
            rw [hcount'] at h1
            omega
          · intro h0
            exfalso
            simp only [menuRegCount] at h0
            rw [hcount'] at h0
            omega


theorem initialMenuState_inv (S : Nat → CUI_menu_t) :
    MenuInv (initialMenuState S) := by
  have hc : menuRegCount (initialMenuState S) = 0 := rfl
  refine ⟨rfl, ?_, ?_, ?_, ?_⟩
  · intro r hr
    have := List.eq_of_mem_replicate hr
    subst this
    exact Or.inl rfl
  · intro hge
    rw [hc] at hge
    omega
  · intro h1
    rw [hc] at h1
    omega
  · intro _
    rfl

theorem menuRun_inv (ops : List MenuOp) : ∀ st : MenuState, MenuInv st →
    (∀ op ∈ ops, op.hash ≠ 0 ∧ op.menuId ≠ multiMenuId) →
    MenuInv (menuRun st ops) := by
  induction ops with
  | nil =>
    intro st hst _
    exact hst
  | cons op ops ih =>
    intro st hst hgood
    rw [menuRun]
    refine ih _ ?_ (fun o ho => hgood o (List.mem_cons_of_mem op ho))
    have hg := hgood op (List.mem_cons_self op ops)
    cases op with
    | reg h m => exact registerMenu_inv st h m hst hg.1 hg.2
    | dereg h m => exact deRegisterMenu_inv st h m hst hg.1 hg.2

theorem multiMenuInUse_iff_of_inv (st : MenuState) (hInv : MenuInv st) :
    multiMenuInUse st ↔ 2 ≤ menuRegCount st := by
  obtain ⟨_, _, hC, hD, hE⟩ := hInv
  constructor
  · intro hmm
    unfold multiMenuInUse at hmm
    by_contra hlt
    have hcase : menuRegCount st = 0 ∨ menuRegCount st = 1 := by omega
    rcases hcase with h0 | h1
    · rw [hE h0] at hmm
      exact Option.noConfusion hmm
    · obtain ⟨m, hmne, hmain⟩ := hD h1
      rw [hmain] at hmm
      exact hmne (Option.some.inj hmm)
  · intro hge
    exact (hC hge).1


theorem scenario_step1 (A B : CUI_menu_t) (hA : Nat)
    (hAu : A.uartUpdateFn.isNone = false) :
    CUI_registerMenu (scenarioInitState A B) hA 1
      = (CUI_SUCCESS, scenarioState1 A B hA) := by
  unfold CUI_registerMenu
  rw [if_neg (by rw [show ((scenarioInitState A B).store 1).uartUpdateFn
    = A.uartUpdateFn from rfl, hAu]; exact Bool.false_ne_true)]
  rfl

/-- The bundled multi-menu composition property: the three observable
snapshots of the register/register/deregister scenario on client menus
A (identifier 1) and B (identifier 2), plus the general root-menu
invariant over arbitrary register/deregister sequences. -/
def c2Property (A B : CUI_menu_t) (hA hB : Nat) : Prop :=
  (let st1 := (CUI_registerMenu (scenarioInitState A B) hA 1).2
   let st2 := (CUI_registerMenu st1 hB 2).2
   let st3 := (CUI_deRegisterMenu st2 hB 2).2
   (st1.gpMainMenu = some 1 ∧ st1.store 1 = A ∧
     menuRegCount st1 = 1 ∧ ¬ multiMenuInUse st1) ∧
   (st2.gpMainMenu = some multiMenuId ∧
     (st2.store multiMenuId).numItems = 3 ∧
     (st2.store multiMenuId).menuItems.getD 0 defaultMenuItem
       = ⟨false, false, none, .pSubMenu 1⟩ ∧
     (st2.store multiMenuId).menuItems.getD 1 defaultMenuItem
       = ⟨false, false, none, .pSubMenu 2⟩ ∧
     (st2.store multiMenuId).menuItems.getD 2 defaultMenuItem = helpMenuItem ∧
     (st2.store 1).menuItems.getD (A.numItems - 1) defaultMenuItem
       = backMenuItem ∧
     (st2.store 2).menuItems.getD (B.numItems - 1) defaultMenuItem
       = backMenuItem ∧
     menuRegCount st2 = 2 ∧ multiMenuInUse st2) ∧
   (st3.gpMainMenu = st1.gpMainMenu ∧
     (st3.store 1).numItems = (st1.store 1).numItems ∧
     menuRegCount st3 = 1 ∧ ¬ multiMenuInUse st3)) ∧
  (∀ (S : Nat → CUI_menu_t) (ops : List MenuOp),
    (∀ op ∈ ops, op.hash ≠ 0 ∧ op.menuId ≠ multiMenuId) →
    (multiMenuInUse (menuRun (initialMenuState S) ops) ↔
      2 ≤ menuRegCount (menuRun (initialMenuState S) ops)))

/-- C2: after one menu is registered it is the root; after a second
registration the synthetic multi-menu becomes the root with exactly 3
items (menu A, menu B, Help) and both registered menus' trailing items
are rewritten to Back; deregistering one of the two restores a
single-root state whose root pointer and item count match the state
before the second registration; and over any sequence of well-formed
register/deregister calls from the initial state, the multi-menu is in
use iff at least 2 top-level menus are registered. -/
theorem claim_C2_multiMenu (A B : CUI_menu_t) (hA hB : Nat)
    (hAu : A.uartUpdateFn.isNone = false)
    (hBu : B.uartUpdateFn.isNone = false)
    (hAne : hA ≠ 0) (hBne : hB ≠ 0)
    (hAlen : A.numItems - 1 < A.menuItems.length)
    (hBlen : B.numItems - 1 < B.menuItems.length) :
    c2Property A B hA hB := by
  have e1 : (CUI_registerMenu (scenarioInitState A B) hA 1).2
      = scenarioState1 A B hA := by
    rw [scenario_step1 A B hA hAu]
  have e2 : (CUI_registerMenu (scenarioState1 A B hA) hB 2).2
      = scenarioState2 A B hA hB := by
    rw [scenario_step2 A B hA hB hAne hBu]
  have e3 : (CUI_deRegisterMenu (scenarioState2 A B hA hB) hB 2).2
      = scenarioState3 A B hA hB := by
    rw [scenario_step3 A B hA hB hAne hBne hBu]
  unfold c2Property
  simp only [e1, e2, e3]
  refine ⟨⟨⟨rfl, rfl, ?_, ?_⟩, ⟨rfl, rfl, rfl, rfl, rfl, ?_, ?_, ?_, rfl⟩,
    ⟨rfl, rfl, ?_, ?_⟩⟩, ?_⟩
  · show List.countP occupiedSlot
      [(hA, some 1), (0, none), (0, none), (0, none)] = 1
    simp [List.countP_cons, occupiedSlot, hAne]
  · intro hmm
    simp [multiMenuInUse, scenarioState1, multiMenuId] at hmm
  · show (A.menuItems.set (A.numItems - 1) backMenuItem).getD
      (A.numItems - 1) defaultMenuItem = backMenuItem
    rw [List.getD_eq_getElem _ _ (by simpa using hAlen)]
    exact List.getElem_set_self (by simpa using hAlen)
  · show (B.menuItems.set (B.numItems - 1) backMenuItem).getD
      (B.numItems - 1) defaultMenuItem = backMenuItem
    rw [List.getD_eq_getElem _ _ (by simpa using hBlen)]
    exact List.getElem_set_self (by simpa using hBlen)
  · show List.countP occupiedSlot
      [(hA, some 1), (hB, some 2), (0, none), (0, none)] = 2
    simp [List.countP_cons, occupiedSlot, hAne, hBne]
  · show List.countP occupiedSlot
      [(hA, some 1), (0, none), (0, none), (0, none)] = 1
    simp [List.countP_cons, occupiedSlot, hAne]
  · intro hmm
    simp [multiMenuInUse, scenarioState3, multiMenuId] at hmm
  · intro S ops hgood
    exact multiMenuInUse_iff_of_inv _
      (menuRun_inv ops _ (initialMenuState_inv S) hgood)

/-- A concrete two-item client menu (one action line plus Help). -/
def demoMenuA : CUI_menu_t :=
  ⟨some 10, "Menu A", 2, none,
   [⟨false, false, some "Line A", .nullItem⟩, helpMenuItem,
    defaultMenuItem, defaultMenuItem, defaultMenuItem]⟩

/-- A concrete three-item client menu (two action lines plus Help). -/
def demoMenuB : CUI_menu_t :=
  ⟨some 20, "Menu B", 3, none,
   [⟨false, false, some "Line B0", .nullItem⟩,
    ⟨false, false, some "Line B1", .nullItem⟩, helpMenuItem,
    defaultMenuItem, defaultMenuItem]⟩

theorem claim_C2_multiMenu_witness :
    (demoMenuA.uartUpdateFn.isNone = false ∧
     demoMenuB.uartUpdateFn.isNone = false ∧
     (7 : Nat) ≠ 0 ∧ (9 : Nat) ≠ 0 ∧
     demoMenuA.numItems - 1 < demoMenuA.menuItems.length ∧
     demoMenuB.numItems - 1 < demoMenuB.menuItems.length) ∧
    c2Property demoMenuA demoMenuB 7 9 :=
  ⟨⟨by decide, by decide, by decide, by decide, by decide, by decide⟩,
   claim_C2_multiMenu demoMenuA demoMenuB 7 9 (by decide) (by decide)
     (by decide) (by decide) (by decide) (by decide)⟩


end CUI
